import Mathlib

/-!
Verification of the LaunchPad.AI career-copilot repository.

This file gives a shallow embedding, in Lean 4, of the pure/string-processing
core of the Python sources (`src/ai_agent.py`, `src/job_searcher.py`,
`src/career_planner.py`, `src/document_generator.py`) and proves or refutes
the specification claims about them.

Modelling conventions:
* Python strings are Lean `String`s (`String.data` is the character list).
  Case folding and whitespace are modelled over ASCII, which covers every
  character class the code inspects.
* The Bedrock model calls (network I/O) are abstracted as explicit oracle
  functions passed in as parameters; a call that raises is an oracle
  returning `Except.error` / `none`.
* `random.randint` / `random.choice` and timestamps are likewise abstracted
  as oracle parameters.
* Python `dict`s that are iterated in insertion order are modelled as
  insertion-ordered association lists with overwrite-on-assign semantics.
-/

namespace LaunchPad

/-! ## Basic string machinery (models of Python `str` primitives) -/

/-- Python whitespace (`str.strip`, `str.split()`, `\s`), ASCII fragment. -/
def pyWs (c : Char) : Bool :=
  c = ' ' || c = '\t' || c = '\n' || c = '\r' || c = '\x0b' || c = '\x0c'

/-- `str.strip()` on a character list: drop whitespace from both ends. -/
def stripL (l : List Char) : List Char :=
  ((l.dropWhile pyWs).reverse.dropWhile pyWs).reverse

/-- `str.strip()`. -/
def stripS (s : String) : String := ⟨stripL s.data⟩

/-- `str.lower()` (ASCII). -/
def lowerS (s : String) : String := ⟨s.data.map Char.toLower⟩

/-- Substring test `pat in s` on character lists. -/
def listContains (pat : List Char) : List Char → Bool
  | [] => pat.isEmpty
  | c :: cs => pat.isPrefixOf (c :: cs) || listContains pat cs

/-- Python `pat in s` (substring containment). -/
def subS (pat s : String) : Bool := listContains pat.data s.data

/-- `str.split('\n')`-style splitting on a single character, Python
semantics: always at least one (possibly empty) part. -/
def splitOnChar (sep : Char) : List Char → List (List Char)
  | [] => [[]]
  | c :: cs =>
    if c = sep then [] :: splitOnChar sep cs
    else
      match splitOnChar sep cs with
      | [] => [[c]]
      | l :: ls => (c :: l) :: ls

/-- `text.split('\n')` returning Lean strings. -/
def linesOf (s : String) : List String := (splitOnChar '\n' s.data).map String.mk

/-- `str.split()` with no argument: split on whitespace runs, no empty parts. -/
def splitWsL : List Char → List (List Char)
  | [] => []
  | c :: cs =>
    if pyWs c then splitWsL cs
    else
      match splitWsL cs with
      | [] => [[c]]
      | w :: ws =>
        match cs with
        | [] => [[c]]
        | d :: _ => if pyWs d then [c] :: w :: ws else (c :: w) :: ws

/-- `str.split()` on a string. -/
def splitWsS (s : String) : List String := (splitWsL s.data).map String.mk

/-- `', '.join`-style join. -/
def joinWith (sep : String) : List String → String
  | [] => ""
  | [x] => x
  | x :: xs => x ++ sep ++ joinWith sep xs

/-- Python `str.replace(pat, rep)`: non-overlapping, left to right. -/
def replaceAllL (pat rep : List Char) : List Char → List Char
  | [] => []
  | c :: cs =>
    if h : pat ≠ [] ∧ pat.isPrefixOf (c :: cs) then
      rep ++ replaceAllL pat rep (List.drop pat.length (c :: cs))
    else
      c :: replaceAllL pat rep cs
termination_by l => l.length
decreasing_by
  · simp only [List.length_drop, List.length_cons]
    have : pat.length ≠ 0 := by
      intro hz
      exact h.1 (List.eq_nil_of_length_eq_zero hz)
    omega
  · simp

/-- `str.replace` on strings. -/
def replaceAllS (pat rep s : String) : String := ⟨replaceAllL pat.data rep.data s.data⟩

/-- Python `l[-n:]`. -/
def takeLast (n : Nat) (l : List α) : List α := l.drop (l.length - n)

/-! ## `src/ai_agent.py` — LaunchPadAgent -/

/-- `LaunchPadAgent.system_prompt` (the triple-quoted literal, verbatim). -/
def system_prompt : String :=
  "\n        You are LaunchPad.AI, an expert AI career copilot. Your role is to help users navigate their career journey from dream to job offer.\n\n        Core capabilities:\n        - Analyze skills and identify gaps\n        - Suggest personalized career paths\n        - Recommend learning resources\n        - Generate resumes and cover letters\n        - Find job opportunities\n        - Provide interview preparation\n\n        Always be:\n        - Encouraging and supportive\n        - Data-driven and practical\n        - Personalized to user\x27s situation\n        - Action-oriented with clear next steps\n\n        Use reasoning to understand user goals, assess their current situation, and provide tailored guidance.\n        "

/-- The fixed apology placeholder returned by `process_message` on any error. -/
def apologyText : String :=
  "I apologize, but I\x27m experiencing technical difficulties. Please try again in a moment."

/-- `LaunchPadAgent._build_context`: persona preamble, optional history
section over `history[-3:]`, the current message, closing instruction. -/
def build_context (message : String) (history : List (String × String)) : String :=
  let context := system_prompt ++ "\n\n"
  let context :=
    if history.isEmpty then context
    else
      (takeLast 3 history).foldl
        (fun acc p => acc ++ "User: " ++ p.1 ++ "\nAssistant: " ++ p.2 ++ "\n\n")
        (context ++ "Previous conversation:\n")
  context ++ "Current user message: " ++ message ++ "\n\n" ++
    "Provide a helpful, personalized response as LaunchPad.AI:"

/-- The candidate loop of `LaunchPadAgent._invoke_claude`.
`configFmt` models `self.model_configs` (model name ↦ `body_format`),
`call` models the Bedrock round-trip `invoke_model` + envelope extraction
for one model and prompt (an exception is `Except.error`), `lastModel` is
`models_to_try[-1]` (the loop compares the *name* of a failing model to it
before deciding to re-raise or continue). The second component of the
result is the trace of models actually called, in call order. -/
def invoke_loop (configFmt : String → Option String)
    (call : String → String → Except String String) (prompt : String)
    (lastModel : Option String) : List String → Except String String × List String
  | [] => (.error "All models failed to respond", [])
  | m :: rest =>
    match configFmt m with
    | none => invoke_loop configFmt call prompt lastModel rest
    | some fmt =>
      if fmt = "nova" then
        match call m prompt with
        | .ok t => (.ok t, [m])
        | .error e =>
          if lastModel = some m then (.error e, [m])
          else
            let r := invoke_loop configFmt call prompt lastModel rest
            (r.1, m :: r.2)
      else invoke_loop configFmt call prompt lastModel rest

/-- `_invoke_claude` over the candidate list `[primary] + fallbacks`,
also reporting which models were called. -/
def invoke_claude_trace (configFmt : String → Option String)
    (call : String → String → Except String String)
    (models : List String) (prompt : String) : Except String String × List String :=
  invoke_loop configFmt call prompt models.getLast? models

/-- `_invoke_claude` (result only). -/
def invoke_claude (configFmt : String → Option String)
    (call : String → String → Except String String)
    (models : List String) (prompt : String) : Except String String :=
  (invoke_claude_trace configFmt call models prompt).1

/-- The agent's registered adapters: `model_configs` has exactly
`nova-micro` with body format `nova`. -/
def agent_model_configs : String → Option String :=
  fun m => if m = "nova-micro" then some "nova" else none

/-- `self.fallback_models`. -/
def fallback_models : List String := ["claude-haiku", "claude-sonnet"]

/-- `LaunchPadAgent._format_response`. -/
def format_response (response : String) : String :=
  let formatted := stripS response
  if subS "steps" (lowerS formatted) || subS "recommendations" (lowerS formatted) then
    replaceAllS "3." "\n3." (replaceAllS "2." "\n2." (replaceAllS "1." "\n1." formatted))
  else formatted

/-- `LaunchPadAgent.process_message`: build context, invoke, format; any
exception is caught and replaced by the apology placeholder. -/
def process_message (configFmt : String → Option String)
    (call : String → String → Except String String) (models : List String)
    (message : String) (history : List (String × String)) : String :=
  match invoke_claude configFmt call models (build_context message history) with
  | .ok response => format_response response
  | .error _ => apologyText

/-- Rendering of a list of (user, agent) pairs, from the spec's description
of the history section (one `User:`/`Assistant:` block per pair). -/
def renderPairs : List (String × String) → String
  | [] => ""
  | p :: r => "User: " ++ p.1 ++ "\nAssistant: " ++ p.2 ++ "\n\n" ++ renderPairs r

/-- The optional history section, from the spec: omitted entirely for empty
history, otherwise a header plus the rendered last-3 pairs. -/
def historySection (history : List (String × String)) : String :=
  if history.isEmpty then ""
  else "Previous conversation:\n" ++ renderPairs (takeLast 3 history)

/-- Adapter registry for the C1 counterexample: `a` and `s` both registered
with the `nova` wire format. -/
def cxConfig : String → Option String :=
  fun s => if s = "a" || s = "s" then some "nova" else none

/-- Call oracle for the C1 counterexample: model `s` succeeds, others raise. -/
def cxCall : String → String → Except String String :=
  fun m _ => if m = "s" then .ok "good" else .error "boom"

/-! ## `src/job_searcher.py` — JobSearcher -/

/-- One entry of the mock job database / a generated job. -/
structure Job where
  title : String
  company : String
  location : String
  salary : String
  description : String
  requirements : List String
  posted_date : String
  company_size : String
  industry : String

/-- `JobSearcher.job_database` (the five hard-coded entries). -/
def job_database : List Job :=
  [ { title := "Senior Data Scientist", company := "TechCorp Inc.",
      location := "San Francisco, CA", salary := "$120,000 - $160,000",
      description := "We are seeking an experienced Data Scientist to join our ML team. You will work on cutting-edge projects involving predictive modeling, machine learning algorithms, and data visualization.",
      requirements := ["Python", "Machine Learning", "SQL", "AWS", "Statistics"],
      posted_date := "2024-01-15", company_size := "1000-5000 employees",
      industry := "Technology" },
    { title := "Software Engineer", company := "StartupX",
      location := "Remote", salary := "$90,000 - $130,000",
      description := "Join our fast-growing startup as a Software Engineer. You will build scalable web applications and work with modern technologies in an agile environment.",
      requirements := ["JavaScript", "React", "Node.js", "MongoDB", "Git"],
      posted_date := "2024-01-14", company_size := "50-200 employees",
      industry := "Technology" },
    { title := "Product Manager", company := "MegaCorp",
      location := "New York, NY", salary := "$110,000 - $140,000",
      description := "Lead product strategy and development for our flagship product. You will work cross-functionally with engineering, design, and business teams.",
      requirements := ["Product Management", "Agile", "Analytics", "Leadership", "SQL"],
      posted_date := "2024-01-13", company_size := "5000+ employees",
      industry := "Technology" },
    { title := "Marketing Manager", company := "BrandCo",
      location := "Los Angeles, CA", salary := "$75,000 - $95,000",
      description := "Drive marketing campaigns and brand strategy. Experience with digital marketing, content creation, and analytics required.",
      requirements := ["Digital Marketing", "Content Strategy", "Analytics", "Social Media", "Adobe Creative Suite"],
      posted_date := "2024-01-12", company_size := "200-1000 employees",
      industry := "Marketing" },
    { title := "UX Designer", company := "DesignStudio",
      location := "Austin, TX", salary := "$70,000 - $100,000",
      description := "Create intuitive user experiences for mobile and web applications. Collaborate with product and engineering teams.",
      requirements := ["UI/UX Design", "Figma", "Prototyping", "User Research", "Design Systems"],
      posted_date := "2024-01-11", company_size := "50-200 employees",
      industry := "Design" } ]

/-- Randomness oracle for `_generate_additional_jobs` /
`_generate_job_requirements` (`random.choice`, `random.randint`,
`random.sample`, `datetime.now()` arithmetic), indexed by loop iteration. -/
structure GenOracle where
  seniority : Nat → String
  company : Nat → String
  salLo : Nat → Nat
  salHi : Nat → Nat
  postedDate : Nat → String
  companySize : Nat → String
  sample : List String → List String

/-- `JobSearcher._generate_job_requirements`: first key of `common_skills`
(in insertion order) contained in the lowered role wins; otherwise the
default skills. -/
def generate_job_requirements (g : GenOracle) (role : String) : List String :=
  let role_lower := lowerS role
  if subS "data scientist" role_lower then
    g.sample ["Python", "Machine Learning", "SQL", "Statistics", "Pandas"]
  else if subS "software engineer" role_lower then
    g.sample ["JavaScript", "Python", "Git", "API Development", "Testing"]
  else if subS "product manager" role_lower then
    g.sample ["Product Strategy", "Agile", "Analytics", "Communication", "Roadmapping"]
  else if subS "designer" role_lower then
    g.sample ["UI/UX Design", "Figma", "Prototyping", "User Research", "Visual Design"]
  else if subS "marketing" role_lower then
    g.sample ["Digital Marketing", "Analytics", "Content Strategy", "SEO", "Social Media"]
  else
    ["Communication", "Problem Solving", "Teamwork", "Analytical Thinking"]

/-- `JobSearcher._generate_additional_jobs`: `count` mock jobs. -/
def generate_additional_jobs (g : GenOracle) (role location : String)
    (count : Nat) : List Job :=
  (List.range count).map (fun i =>
    { title := role ++ " - " ++ g.seniority i,
      company := g.company i,
      location := if location ≠ "remote" then location else "Remote",
      salary := "$" ++ toString (g.salLo i) ++ ",000 - $" ++ toString (g.salHi i) ++ ",000",
      description := "Exciting opportunity for a " ++ role ++ " to join our growing team. Work on innovative projects with cutting-edge technology.",
      requirements := generate_job_requirements g role,
      posted_date := g.postedDate i,
      company_size := g.companySize i,
      industry := "Technology" })

/-- The title test of `_filter_jobs`: some role keyword occurs in the
lowered job title. -/
def title_match_test (role_keywords : List String) (job : Job) : Bool :=
  role_keywords.any (fun kw => subS kw (lowerS job.title))

/-- The location test of `_filter_jobs`. -/
def location_match_test (location : String) (job : Job) : Bool :=
  lowerS location = "remote" || subS (lowerS location) (lowerS job.location) ||
    job.location = "Remote"

/-- `JobSearcher._filter_jobs`: database filter, padding with mock jobs when
fewer than 3 match, capped at 10 results. `experience_level` is accepted
but (as in the code) unused. -/
def filter_jobs (g : GenOracle) (role location experience_level : String) : List Job :=
  let role_keywords := splitWsS (lowerS role)
  let filtered_jobs := job_database.filter
    (fun job => title_match_test role_keywords job && location_match_test location job)
  let filtered_jobs :=
    if filtered_jobs.length < 3 then
      filtered_jobs ++ generate_additional_jobs g role location (5 - filtered_jobs.length)
    else filtered_jobs
  filtered_jobs.take 10

/-! ### `_extract_match_score`: models of the three regex patterns -/

/-- The character class `[:\s]`. -/
def isColonSpace (c : Char) : Bool := c = ':' || pyWs c

/-- Case-insensitive literal match (pattern given lowercased); returns the
remaining input on success. Models the literal part of a Python regex under
`re.IGNORECASE`. -/
def matchLitCI : List Char → List Char → Option (List Char)
  | [], rest => some rest
  | _ :: _, [] => none
  | p :: ps, c :: cs => if c.toLower = p then matchLitCI ps cs else none

/-- `int()` of a nonempty digit string. -/
def digitsToNat (ds : List Char) : Nat :=
  ds.foldl (fun acc c => 10 * acc + (c.toNat - 48)) 0

/-- Try `kw[:\s]+(\d+)` anchored at the current position (used with
`kw = score` and `kw = match`, `re.IGNORECASE`). Both repetitions are
greedy; since `[:\s]` and `\d` are disjoint classes no backtracking can
occur, so maximal munch is exact. -/
def tryKeywordNumAt (kw : List Char) (cs : List Char) : Option Nat :=
  match matchLitCI kw cs with
  | none => none
  | some r1 =>
    let sp := r1.takeWhile isColonSpace
    if sp.isEmpty then none
    else
      let r2 := r1.drop sp.length
      let ds := r2.takeWhile Char.isDigit
      if ds.isEmpty then none else some (digitsToNat ds)

/-- Try `(\d+)(?:/100|\%)` anchored at the current position. `\d+` is
greedy and cannot backtrack usefully (neither `/` nor `%` is a digit). -/
def tryFracAt (cs : List Char) : Option Nat :=
  let ds := cs.takeWhile Char.isDigit
  if ds.isEmpty then none
  else
    let r := cs.drop ds.length
    if "/100".data.isPrefixOf r || "%".data.isPrefixOf r then some (digitsToNat ds)
    else none

/-- `re.search`: try the anchored pattern at each position, left to right. -/
def reSearch (tryAt : List Char → Option Nat) : List Char → Option Nat
  | [] => tryAt []
  | c :: cs =>
    match tryAt (c :: cs) with
    | some n => some n
    | none => reSearch tryAt cs

/-- `JobSearcher._extract_match_score`: the three score regexes in order
(each clamped into [0,100]), then the sentiment-band random fallbacks.
`rnd a b` models `random.randint(a, b)`. -/
def extract_match_score (rnd : Int → Int → Int) (analysis : String) : Int :=
  match reSearch (tryKeywordNumAt "score".data) analysis.data with
  | some n => min 100 (max 0 (n : Int))
  | none =>
  match reSearch tryFracAt analysis.data with
  | some n => min 100 (max 0 (n : Int))
  | none =>
  match reSearch (tryKeywordNumAt "match".data) analysis.data with
  | some n => min 100 (max 0 (n : Int))
  | none =>
    let low := lowerS analysis
    if subS "excellent" low || subS "perfect" low then rnd 85 95
    else if subS "good" low || subS "strong" low then rnd 70 84
    else if subS "fair" low || subS "adequate" low then rnd 55 69
    else rnd 40 70

/-! ### Job match analysis and result formatting -/

/-- The `match_analysis` dict attached to each job. -/
structure MatchAnalysis where
  score : Int
  analysis : String
  timestamp : String

/-- The fixed fallback analysis text of `_get_job_match_analysis`. -/
def fallbackAnalysisText : String :=
  "This position offers good opportunities for growth and skill development. Consider applying if the role aligns with your career goals."

/-- `JobSearcher._get_job_match_analysis`: `call` is the Bedrock oracle
(`none` = the call raised), `rnd` is `random.randint`, `ts` the timestamp. -/
def get_job_match_analysis (call : Job → Option String) (rnd : Int → Int → Int)
    (ts : String) (job : Job) : MatchAnalysis :=
  match call job with
  | some analysis_text =>
    { score := extract_match_score rnd analysis_text, analysis := analysis_text,
      timestamp := ts }
  | none =>
    { score := rnd 60 85, analysis := fallbackAnalysisText, timestamp := ts }

/-- A job together with its `match_analysis`. -/
structure AnalyzedJob where
  job : Job
  match_analysis : MatchAnalysis

/-- Stable descending insertion (models `sorted(key=score, reverse=True)`,
which is the unique stable descending order). -/
def insertByScore (x : AnalyzedJob) : List AnalyzedJob → List AnalyzedJob
  | [] => [x]
  | y :: ys =>
    if x.match_analysis.score > y.match_analysis.score then x :: y :: ys
    else y :: insertByScore x ys

/-- Stable sort by descending match score. -/
def sortByScoreDesc (l : List AnalyzedJob) : List AnalyzedJob :=
  l.foldl (fun acc x => insertByScore x acc) []

/-- `JobSearcher._analyze_job_matches`. -/
def analyze_job_matches (call : Job → Option String) (rnd : Int → Int → Int)
    (ts : String) (jobs : List Job) : List AnalyzedJob :=
  sortByScoreDesc (jobs.map (fun j => ⟨j, get_job_match_analysis call rnd ts j⟩))

/-- The score emoji chosen per job in `_format_job_results`. -/
def score_emoji (s : Int) : String :=
  if s ≥ 80 then "🟢" else if s ≥ 60 then "🟡" else "🔴"

/-- `analysis.split('.')[0]`. -/
def firstSentence (s : String) : String :=
  String.mk ((splitOnChar '.' s.data).headD [])

/-- One job block of `_format_job_results` (1-based index `i`). -/
def render_job (i : Nat) (aj : AnalyzedJob) : String :=
  let job := aj.job
  let match_score := aj.match_analysis.score
  let descr :=
    if job.description.data.length > 200 then
      String.mk (job.description.data.take 200) ++ "..."
    else job.description
  "### " ++ toString i ++ ". " ++ job.title ++ " " ++ score_emoji match_score ++ "\n\n" ++
  "**🏢 Company:** " ++ job.company ++ " (" ++ job.company_size ++ ")\n" ++
  "**📍 Location:** " ++ job.location ++ "\n" ++
  "**💰 Salary:** " ++ job.salary ++ "\n" ++
  "**📊 Match Score:** " ++ toString match_score ++ "/100\n" ++
  "**📅 Posted:** " ++ job.posted_date ++ "\n\n" ++
  "**📝 Description:** " ++ descr ++ "\n\n" ++
  (if job.requirements.isEmpty then ""
   else "**🔧 Key Requirements:** " ++ joinWith ", " job.requirements ++ "\n\n") ++
  (if aj.match_analysis.analysis = "" then ""
   else "**🤖 AI Analysis:** " ++ firstSentence aj.match_analysis.analysis ++ "." ++ "\n\n") ++
  "---\n\n"

/-- The `enumerate(jobs[:5], 1)` rendering loop. -/
def render_jobs (i : Nat) : List AnalyzedJob → String
  | [] => ""
  | a :: rest => render_job i a ++ render_jobs (i + 1) rest

/-- The fixed tips block of `_format_job_results`. -/
def job_tips : String :=
  "## 💡 Job Search Success Tips\n\n" ++
  "1. **📄 Tailor Your Resume**: Customize for each application using keywords from job descriptions\n" ++
  "2. **🤝 Network**: Leverage LinkedIn and professional connections\n" ++
  "3. **🔍 Research**: Study company culture, values, and recent news\n" ++
  "4. **📞 Follow Up**: Send personalized messages after applying\n" ++
  "5. **🎯 Practice**: Prepare for common interview questions in your field\n\n"

/-- The `No Jobs Found` branch of `_format_job_results`. -/
def no_jobs_msg (role location : String) : String :=
  "## 💼 No Jobs Found\n\nNo jobs found for **" ++ role ++ "** in **" ++ location ++
    "**.\n\n### 💡 Try:\n- Broadening your search terms\n- Considering remote positions\n- Looking at related roles"

/-- The non-empty branch of `_format_job_results`. -/
def job_results_body (jobs : List AnalyzedJob) (role location : String) : String :=
  "## 💼 Job Search Results\n\n" ++
  "**Role:** " ++ role ++ "\n**Location:** " ++ location ++ "\n**Found:** " ++
    toString jobs.length ++ " opportunities\n\n" ++
  render_jobs 1 (jobs.take 5) ++
  job_tips ++
  (if jobs.length > 5 then
    "*Showing top 5 results. " ++ toString (jobs.length - 5) ++
      " more opportunities in your search.*\n"
   else "")

/-- `JobSearcher._format_job_results`. -/
def format_job_results (jobs : List AnalyzedJob) (role location : String) : String :=
  if jobs.isEmpty then no_jobs_msg role location
  else job_results_body jobs role location

/-- `JobSearcher.search` (the happy path; the model has no failing steps). -/
def job_search (g : GenOracle) (call : Job → Option String) (rnd : Int → Int → Int)
    (ts role location experience_level : String) : String :=
  let jobs := filter_jobs g role location experience_level
  let analyzed_jobs := analyze_job_matches call rnd ts jobs
  format_job_results analyzed_jobs role location

/-- A concrete randomness oracle used to instantiate witnesses. -/
def trivialGenOracle : GenOracle :=
  { seniority := fun _ => "Senior", company := fun _ => "InnovateCorp",
    salLo := fun _ => 60, salHi := fun _ => 80,
    postedDate := fun _ => "2024-01-01", companySize := fun _ => "50-200 employees",
    sample := fun l => l }

/-! ## `src/document_generator.py` — DocumentGenerator -/

/-- `str.startswith(p)`. -/
def startsWithS (p s : String) : Bool := p.data.isPrefixOf s.data

/-- The sections dict built by `_parse_resume_content`. -/
structure ResumeSections where
  name : String
  contact_info : String
  summary : String
  skills : String
  experience : String
  education : String
  projects : String
deriving DecidableEq

/-- The five content section keys of `_parse_resume_content`. -/
inductive ResumeField
  | summary
  | skills
  | experience
  | education
  | projects
deriving DecidableEq

/-- Read one content section. -/
def getSection (s : ResumeSections) : ResumeField → String
  | .summary => s.summary
  | .skills => s.skills
  | .experience => s.experience
  | .education => s.education
  | .projects => s.projects

/-- `sections[current_section] += line + '\n'`. -/
def appendSection (s : ResumeSections) (f : ResumeField) (line : String) : ResumeSections :=
  match f with
  | .summary => { s with summary := s.summary ++ line ++ "\n" }
  | .skills => { s with skills := s.skills ++ line ++ "\n" }
  | .experience => { s with experience := s.experience ++ line ++ "\n" }
  | .education => { s with education := s.education ++ line ++ "\n" }
  | .projects => { s with projects := s.projects ++ line ++ "\n" }

/-- The section-trigger chain of `_parse_resume_content` (applied to the
lowercased stripped line; first hit wins). -/
def resumeTrigger (lline : String) : Option ResumeField :=
  if subS "summary" lline then some .summary
  else if subS "skill" lline then some .skills
  else if subS "experience" lline then some .experience
  else if subS "education" lline then some .education
  else if subS "project" lline then some .projects
  else none

/-- One iteration of the `_parse_resume_content` line loop. -/
def parse_resume_step (st : ResumeSections × Option ResumeField)
    (rawLine : String) : ResumeSections × Option ResumeField :=
  let line := stripS rawLine
  if line = "" then st
  else
    match resumeTrigger (lowerS line) with
    | some f => (st.1, some f)
    | none =>
      match st.2 with
      | some f => if startsWithS "#" line then st else (appendSection st.1 f line, st.2)
      | none => st

/-- `DocumentGenerator._extract_name`: first line containing `name` and a
colon; its `split(':')[1]`, stripped; otherwise the placeholder. -/
def extract_name_go : List String → String
  | [] => "Your Name"
  | line :: rest =>
    if subS "name" (lowerS line) && subS ":" line then
      stripS ⟨(splitOnChar ':' line.data).getD 1 []⟩
    else extract_name_go rest

/-- `DocumentGenerator._extract_name`. -/
def extract_name (personal_info : String) : String :=
  extract_name_go (linesOf personal_info)

/-- `DocumentGenerator._extract_contact_info`. -/
def extract_contact_info (personal_info : String) : String :=
  let contact_lines :=
    ((linesOf personal_info).filter (fun line =>
      subS "email" (lowerS line) || subS "phone" (lowerS line) ||
      subS "linkedin" (lowerS line) || subS "address" (lowerS line))).map stripS
  if contact_lines.isEmpty then "Contact Information"
  else joinWith "\n" contact_lines

/-- The fold of `_parse_resume_content` over the lines of the completion. -/
def parse_resume_lines (st : ResumeSections × Option ResumeField)
    (lines : List String) : ResumeSections × Option ResumeField :=
  lines.foldl parse_resume_step st

/-- `DocumentGenerator._parse_resume_content`. -/
def parse_resume_content (content personal_info : String) : ResumeSections :=
  (parse_resume_lines
    ({ name := extract_name personal_info,
       contact_info := extract_contact_info personal_info,
       summary := "", skills := "", experience := "", education := "",
       projects := "" }, none)
    (linesOf content)).1

/-- `DocumentGenerator._format_resume` (`date` stands for
`datetime.now().strftime('%B %d, %Y')`). -/
def format_resume (content : ResumeSections) (date : String) : String :=
  "# 📄 Professional Resume\n\n## " ++ content.name ++ "\n" ++ content.contact_info ++
  "\n\n---\n\n## 🎯 Professional Summary\n" ++ content.summary ++
  "\n\n---\n\n## 💪 Skills\n" ++ content.skills ++
  "\n\n---\n\n## 💼 Professional Experience\n" ++ content.experience ++
  "\n\n---\n\n## 🎓 Education\n" ++ content.education ++
  "\n\n---\n\n## 🚀 Projects\n" ++ content.projects ++
  "\n\n---\n\n*Resume generated by LaunchPad.AI on " ++ date ++ "*\n"

/-! ## `src/career_planner.py` — CareerPlanner -/

/-- A Python dict of strings, iterated in insertion order. -/
abbrev SuggDict := List (String × String)

/-- Dict assignment `d[k] = v`: overwrite in place or append. -/
def dinsert (d : SuggDict) (k v : String) : SuggDict :=
  if d.any (fun p => p.1 = k) then d.map (fun p => if p.1 = k then (k, v) else p)
  else d ++ [(k, v)]

/-- Dict lookup `d.get(k)`. -/
def dlookup (d : SuggDict) (k : String) : Option String :=
  (d.find? (fun p => p.1 = k)).map (fun p => p.2)

/-- Dict membership `k in d`. -/
def dmem (d : SuggDict) (k : String) : Bool := d.any (fun p => p.1 = k)

/-- `line.split(':')[-1].strip()`. -/
def career_title_of (line : String) : String :=
  stripS ⟨(splitOnChar ':' line.data).getLastD []⟩

/-- One iteration of the `_parse_career_suggestions` line loop: state is
(collected suggestions, current suggestion dict). -/
def parse_career_step (st : List SuggDict × SuggDict) (rawLine : String) :
    List SuggDict × SuggDict :=
  let line := stripS rawLine
  if line = "" then
    if st.2.isEmpty then st else (st.1 ++ [st.2], [])
  else
    let ll := lowerS line
    if (subS "path" ll || subS "career" ll || subS "role" ll) && subS ":" line then
      (st.1, dinsert st.2 "title" (career_title_of line))
    else if subS "industry" ll then (st.1, dinsert st.2 "industry" line)
    else if subS "fit" ll || subS "why" ll then (st.1, dinsert st.2 "fit_reason" line)
    else if subS "salary" ll then (st.1, dinsert st.2 "salary" line)
    else if subS "timeline" ll then (st.1, dinsert st.2 "timeline" line)
    else st

/-- `CareerPlanner._parse_career_suggestions`. -/
def parse_career_suggestions (text : String) : List SuggDict :=
  let st := (linesOf text).foldl parse_career_step ([], [])
  let suggestions := if st.2.isEmpty then st.1 else st.1 ++ [st.2]
  if suggestions.isEmpty then [[("title", "Custom Career Path"), ("description", text)]]
  else suggestions

/-- The disjunction of all branch conditions of the career-suggestion line
loop (a line on which no branch fires contributes nothing). -/
def career_trigger (line : String) : Bool :=
  let ll := lowerS line
  ((subS "path" ll || subS "career" ll || subS "role" ll) && subS ":" line) ||
    subS "industry" ll || subS "fit" ll || subS "why" ll || subS "salary" ll ||
    subS "timeline" ll

/-- The roadmap prompt of `_create_career_roadmaps` (f-string, verbatim). -/
def roadmap_prompt (title skills experience goal : String) : String :=
  "\n            Create a detailed 12-month career roadmap for: " ++ title ++
  "\n            \n            Current Skills: " ++ skills ++
  "\n            Experience Level: " ++ experience ++
  "\n            Career Goal: " ++ goal ++
  "\n            \n            Provide a month-by-month plan including:\n            - Skills to develop each quarter\n            - Certifications or courses to complete\n            - Networking and professional development activities\n            - Portfolio projects or experience to gain\n            - Job search and application timeline\n            - Milestones and success metrics\n            \n            Make it specific and actionable.\n            "

/-- The placeholder recorded when a roadmap invocation raises. -/
def roadmap_placeholder : String := "Roadmap temporarily unavailable."

/-- The loop body of `_create_career_roadmaps` over `enumerate(suggestions[:3])`
(0-based `i`); `call` is the Bedrock oracle (`none` = the call raised). -/
def create_roadmaps_go (call : String → Option String) (skills experience : String) :
    Nat → List SuggDict → SuggDict → SuggDict
  | _, [], roadmaps => roadmaps
  | i, s :: rest, roadmaps =>
    let title := (dlookup s "title").getD ("Career Path " ++ toString (i + 1))
    let goal := (dlookup s "description").getD title
    let roadmaps :=
      match call (roadmap_prompt title skills experience goal) with
      | some text => dinsert roadmaps title text
      | none => dinsert roadmaps title roadmap_placeholder
    create_roadmaps_go call skills experience (i + 1) rest roadmaps

/-- `CareerPlanner._create_career_roadmaps`. -/
def create_career_roadmaps (call : String → Option String)
    (suggestions : List SuggDict) (skills experience : String) : SuggDict :=
  create_roadmaps_go call skills experience 0 (suggestions.take 3) []

/-- The roadmap text recorded for the suggestion at 0-based index `i`:
the model text on success, the fixed placeholder when the call raised. -/
def roadmap_outcome (call : String → Option String) (skills experience : String)
    (i : Nat) (s : SuggDict) : String :=
  let title := (dlookup s "title").getD ("Career Path " ++ toString (i + 1))
  let goal := (dlookup s "description").getD title
  match call (roadmap_prompt title skills experience goal) with
  | some text => text
  | none => roadmap_placeholder

/-- Python `str.title()` (ASCII): uppercase every alpha character that
follows a non-alpha character, lowercase the rest. -/
def pyTitleGo (prevAlpha : Bool) : List Char → List Char
  | [] => []
  | c :: cs =>
    let alpha := c.isAlpha
    (if alpha then (if prevAlpha then c.toLower else c.toUpper) else c) ::
      pyTitleGo alpha cs

/-- Python `str.title()`. -/
def pyTitle (s : String) : String := ⟨pyTitleGo false s.data⟩

/-- The `for key, value in suggestion.items()` detail loop of
`_format_career_suggestions`. -/
def render_suggestion_details (s : SuggDict) : String :=
  s.foldl (fun acc p =>
    if p.1 ≠ "title" && p.2 ≠ "" then
      acc ++ "**" ++ pyTitle (replaceAllS "_" " " p.1) ++ ":** " ++ p.2 ++ "\n\n"
    else acc) ""

/-- One suggestion block of `_format_career_suggestions` (1-based `i`). -/
def render_suggestion_block (i : Nat) (s : SuggDict) (roadmaps : SuggDict) : String :=
  let title := (dlookup s "title").getD ("Career Path " ++ toString i)
  "### " ++ toString i ++ ". " ++ title ++ "\n\n" ++
  render_suggestion_details s ++
  (if dmem roadmaps title then
    "#### ðŸ“‹ 12-Month Roadmap for " ++ title ++ "\n\n" ++
      (dlookup roadmaps title).getD "" ++ "\n\n"
   else "") ++
  "---\n\n"

/-- The `enumerate(suggestions[:3], 1)` rendering loop. -/
def render_suggestions_go (i : Nat) (roadmaps : SuggDict) : List SuggDict → String
  | [] => ""
  | s :: rest =>
    render_suggestion_block i s roadmaps ++ render_suggestions_go (i + 1) roadmaps rest

/-- The fixed trailing guidance of `_format_career_suggestions`
(the source file stores the emoji bytes double-encoded; they are
reproduced verbatim). -/
def career_next_steps : String :=
  "## ðŸ’¡ Next Steps\n\n" ++
  "1. **Choose Your Path**: Review the suggestions and select the one that resonates most with your goals\n" ++
  "2. **Start Learning**: Begin with the first quarter\x27s skill development recommendations\n" ++
  "3. **Build Your Network**: Connect with professionals in your chosen field\n" ++
  "4. **Create a Portfolio**: Start working on projects that demonstrate your growing skills\n" ++
  "5. **Track Progress**: Set monthly check-ins to review your progress and adjust the plan\n\n" ++
  "Remember: Career paths are flexible. You can pivot and adjust as you learn and grow! ðŸŒŸ"

/-- `CareerPlanner._format_career_suggestions`. -/
def format_career_suggestions (suggestions : List SuggDict) (roadmaps : SuggDict) : String :=
  "## ðŸš€ Personalized Career Path Suggestions\n\n" ++
  render_suggestions_go 1 roadmaps (suggestions.take 3) ++
  career_next_steps

/-- C8 counterexample data: two suggestions share the title `X` but have
different descriptions (hence different roadmap prompts), a third has
title `Y`. -/
def cxSugg1 : SuggDict := [("title", "X"), ("description", "alpha")]

/-- Second C8 counterexample suggestion (same title as the first). -/
def cxSugg2 : SuggDict := [("title", "X"), ("description", "beta")]

/-- Third C8 counterexample suggestion. -/
def cxSugg3 : SuggDict := [("title", "Y")]

/-- C8 counterexample oracle: the roadmap calls for suggestion 1 and 3
succeed, the call for suggestion 2 raises. -/
def cxRoadmapCall : String → Option String :=
  fun p =>
    if p = roadmap_prompt "X" "sk" "exp" "alpha" then some "R1"
    else if p = roadmap_prompt "Y" "sk" "exp" "Y" then some "R3"
    else none

/-- C8 witness oracle: only the roadmap call for title `B` raises. -/
def wRoadmapCall : String → Option String :=
  fun p => if p = roadmap_prompt "B" "sk" "exp" "B" then none else some "OK"

/-- C8 witness suggestion 1. -/
def wS1 : SuggDict := [("title", "A")]

/-- C8 witness suggestion 2. -/
def wS2 : SuggDict := [("title", "B")]

/-- C8 witness suggestion 3. -/
def wS3 : SuggDict := [("title", "C")]

/-! ## Round-trip machinery for `_format_resume` / `_parse_resume_content` -/

/-- Concatenation of lines, each terminated by a newline (the shape of every
content section built by `_parse_resume_content`). -/
def linesGlue : List String → String
  | [] => ""
  | l :: ls => l ++ "\n" ++ linesGlue ls

/-- Overwrite one content section. -/
def updateSection (s : ResumeSections) (f : ResumeField) (v : String) : ResumeSections :=
  match f with
  | .summary => { s with summary := v }
  | .skills => { s with skills := v }
  | .experience => { s with experience := v }
  | .education => { s with education := v }
  | .projects => { s with projects := v }

/-- A line as stored into a section by the parser: already stripped,
non-empty, not a `#` heading, free of section triggers and of newlines. -/
def CleanLine (l : String) : Prop :=
  stripS l = l ∧ l ≠ "" ∧ startsWithS "#" l = false ∧
    resumeTrigger (lowerS l) = none ∧ '\n' ∉ l.data

/-- A section value in the image of the parser: a newline-terminated
concatenation of clean lines. -/
def NormalContent (c : String) : Prop :=
  ∃ ls : List String, c = linesGlue ls ∧ ∀ l ∈ ls, CleanLine l

/-- C6 counterexample: the section mapping parsed from the two-section
example completion. -/
def cxResume0 : ResumeSections :=
  parse_resume_content "Summary:\nGreat candidate.\n\nSkills:\nPython, SQL" ""

/-- C6 counterexample: re-parse of the rendered resume. -/
def cxResume1 : ResumeSections :=
  parse_resume_content (format_resume cxResume0 "January 1, 2024") ""


/-- Parse a raw character range: split it on newlines and fold the
resume-parser step over the resulting lines. `parse_resume_content` is
`parseChunk` applied to the whole completion. -/
def parseChunk (st : ResumeSections × Option ResumeField) (x : List Char) :
    ResumeSections × Option ResumeField :=
  parse_resume_lines st ((splitOnChar '\n' x).map String.mk)

end LaunchPad

namespace LaunchPad

/-! ## Theorems: string machinery -/

theorem splitOnChar_ne_nil (sep : Char) (l : List Char) : splitOnChar sep l ≠ [] := by
  cases l with
  | nil => simp [splitOnChar]
  | cons c cs =>
    simp only [splitOnChar]
    split
    · simp
    · cases h : splitOnChar sep cs <;> simp

theorem linesOf_ne_nil (s : String) : linesOf s ≠ [] := by
  unfold linesOf
  have := splitOnChar_ne_nil '\n' s.data
  cases h : splitOnChar '\n' s.data with
  | nil => exact absurd h this
  | cons a l => simp

theorem string_append_assoc (a b c : String) : a ++ b ++ c = a ++ (b ++ c) := by
  apply String.ext
  simp [String.data_append, List.append_assoc]

theorem string_append_empty (a : String) : a ++ "" = a := by
  apply String.ext
  simp [String.data_append]

theorem foldl_renderPairs (l : List (String × String)) (acc : String) :
    l.foldl (fun acc p => acc ++ "User: " ++ p.1 ++ "\nAssistant: " ++ p.2 ++ "\n\n") acc =
      acc ++ renderPairs l := by
  induction l generalizing acc with
  | nil =>
    simp [renderPairs, List.foldl, string_append_empty]
  | cons p r ih =>
    simp only [List.foldl, renderPairs, ih]
    simp [string_append_assoc]

theorem takeLast_length_le (n : Nat) (l : List α) : (takeLast n l).length ≤ n := by
  simp only [takeLast, List.length_drop]
  omega

theorem takeLast_all (n : Nat) (l : List α) (h : l.length ≤ n) : takeLast n l = l := by
  simp only [takeLast]
  have : l.length - n = 0 := by omega
  simp [this]

theorem takeLast_takeLast (n : Nat) (l : List α) :
    takeLast n (takeLast n l) = takeLast n l :=
  takeLast_all n _ (takeLast_length_le n l)

theorem takeLast_eq_nil_iff (n : Nat) (l : List α) (hn : 0 < n) :
    takeLast n l = [] ↔ l = [] := by
  constructor
  · intro h
    cases l with
    | nil => rfl
    | cons a t =>
      exfalso
      simp only [takeLast] at h
      have hlen := congrArg List.length h
      simp only [List.length_drop, List.length_nil] at hlen
      simp only [List.length_cons] at hlen
      omega
  · intro h; subst h; simp [takeLast]

/-! ## Theorems: ai_agent -/

theorem build_context_decomp (msg : String) (history : List (String × String)) :
    build_context msg history =
      system_prompt ++ "\n\n" ++ historySection history ++
        "Current user message: " ++ msg ++ "\n\n" ++
        "Provide a helpful, personalized response as LaunchPad.AI:" := by
  by_cases h : history.isEmpty
  · simp only [build_context, historySection, h, if_pos]
    apply String.ext
    simp [String.data_append, List.append_assoc]
  · simp only [build_context, historySection, h, if_neg, Bool.false_eq_true,
      not_false_iff, if_false]
    rw [foldl_renderPairs]
    apply String.ext
    simp [String.data_append, List.append_assoc]

/-- C9: the chat prompt consists of the fixed persona preamble, an optional
history section over only the last 3 (user, agent) pairs (omitted when the
history is empty), the current message embedded verbatim, and the fixed
closing instruction; pairs earlier than the last 3 do not influence the
prompt at all. -/
theorem chat_prompt_structure (msg : String) (history : List (String × String)) :
    build_context msg history =
      system_prompt ++ "\n\n" ++ historySection history ++
        "Current user message: " ++ msg ++ "\n\n" ++
        "Provide a helpful, personalized response as LaunchPad.AI:" ∧
    build_context msg history = build_context msg (takeLast 3 history) := by
  refine ⟨build_context_decomp msg history, ?_⟩
  rw [build_context_decomp, build_context_decomp]
  have hsec : historySection history = historySection (takeLast 3 history) := by
    unfold historySection
    have hiff : (takeLast 3 history).isEmpty = history.isEmpty := by
      cases hh : history.isEmpty
      · have : history ≠ [] := by
          intro hnil
          rw [hnil] at hh
          simp at hh
        have : takeLast 3 history ≠ [] := by
          intro hnil
          exact this ((takeLast_eq_nil_iff 3 history (by omega)).mp hnil)
        simp [List.isEmpty_iff, this]
      · have : history = [] := by
          cases history with
          | nil => rfl
          | cons a t => simp at hh
        subst this
        simp [takeLast]
    rw [hiff, takeLast_takeLast]
  rw [hsec]

theorem invoke_loop_cons_none {configFmt : String → Option String}
    {call : String → String → Except String String} {prompt : String}
    {lastModel : Option String} {p : String} (rest : List String)
    (hc : configFmt p = none) :
    invoke_loop configFmt call prompt lastModel (p :: rest) =
      invoke_loop configFmt call prompt lastModel rest := by
  simp only [invoke_loop, hc]

theorem invoke_loop_cons_notNova {configFmt : String → Option String}
    {call : String → String → Except String String} {prompt : String}
    {lastModel : Option String} {p fmt : String} (rest : List String)
    (hc : configFmt p = some fmt) (hf : fmt ≠ "nova") :
    invoke_loop configFmt call prompt lastModel (p :: rest) =
      invoke_loop configFmt call prompt lastModel rest := by
  simp only [invoke_loop, hc, if_neg hf]

theorem invoke_loop_cons_ok {configFmt : String → Option String}
    {call : String → String → Except String String} {prompt : String}
    {lastModel : Option String} {p t : String} (rest : List String)
    (hc : configFmt p = some "nova") (hok : call p prompt = .ok t) :
    invoke_loop configFmt call prompt lastModel (p :: rest) = (.ok t, [p]) := by
  simp [invoke_loop, hc, hok]

theorem invoke_loop_cons_err_last {configFmt : String → Option String}
    {call : String → String → Except String String} {prompt : String}
    {lastModel : Option String} {p e : String} (rest : List String)
    (hc : configFmt p = some "nova") (he : call p prompt = .error e)
    (hl : lastModel = some p) :
    invoke_loop configFmt call prompt lastModel (p :: rest) = (.error e, [p]) := by
  simp [invoke_loop, hc, he, hl]

theorem invoke_loop_cons_err_cont {configFmt : String → Option String}
    {call : String → String → Except String String} {prompt : String}
    {lastModel : Option String} {p e : String} (rest : List String)
    (hc : configFmt p = some "nova") (he : call p prompt = .error e)
    (hl : lastModel ≠ some p) :
    invoke_loop configFmt call prompt lastModel (p :: rest) =
      ((invoke_loop configFmt call prompt lastModel rest).1,
        p :: (invoke_loop configFmt call prompt lastModel rest).2) := by
  simp [invoke_loop, hc, he, hl]

theorem invoke_loop_all_fail (configFmt : String → Option String)
    (call : String → String → Except String String) (prompt : String)
    (lastModel : Option String) (ms : List String)
    (h : ∀ m ∈ ms, configFmt m = none ∨ ∀ t, call m prompt ≠ .ok t) :
    ∃ e, (invoke_loop configFmt call prompt lastModel ms).1 = .error e := by
  induction ms with
  | nil => exact ⟨"All models failed to respond", rfl⟩
  | cons m rest ih =>
    have hm := h m (List.mem_cons_self m rest)
    have hrest : ∀ x ∈ rest, configFmt x = none ∨ ∀ t, call x prompt ≠ .ok t :=
      fun x hx => h x (List.mem_cons_of_mem m hx)
    cases hc : configFmt m with
    | none =>
      rw [invoke_loop_cons_none rest hc]
      exact ih hrest
    | some fmt =>
      by_cases hf : fmt = "nova"
      · subst hf
        cases hcall : call m prompt with
        | ok t =>
          exfalso
          rcases hm with hm | hm
          · rw [hc] at hm; exact Option.noConfusion hm
          · exact hm t hcall
        | error e =>
          by_cases hl : lastModel = some m
          · exact ⟨e, by rw [invoke_loop_cons_err_last rest hc hcall hl]⟩
          · rcases ih hrest with ⟨e', he'⟩
            exact ⟨e', by rw [invoke_loop_cons_err_cont rest hc hcall hl]; exact he'⟩
      · rw [invoke_loop_cons_notNova rest hc hf]
        exact ih hrest

/-- C2: when every candidate either lacks a registered adapter or its model
call raises, `_invoke_claude` raises (either the last candidate's error or
the exhausted-candidates error), and `process_message` catches it and
returns the fixed apology placeholder instead of propagating. -/
theorem process_message_apology_on_exhaustion (configFmt : String → Option String)
    (call : String → String → Except String String) (models : List String)
    (message : String) (history : List (String × String))
    (h : ∀ m ∈ models, configFmt m = none ∨
      ∀ t, call m (build_context message history) ≠ .ok t) :
    (∃ e, invoke_claude configFmt call models (build_context message history) = .error e) ∧
    process_message configFmt call models message history = apologyText := by
  obtain ⟨e, he⟩ :=
    invoke_loop_all_fail configFmt call (build_context message history)
      models.getLast? models h
  refine ⟨⟨e, he⟩, ?_⟩
  simp only [process_message, invoke_claude, invoke_claude_trace] at *
  rw [he]

/-- C2 witness: with the agent's real registry (`nova-micro` only) and a call
oracle that always raises, the invoker errors and the chat entry point
returns the apology text. -/
theorem process_message_apology_witness :
    (∃ e, invoke_claude agent_model_configs (fun _ _ => .error "down")
        ("nova-micro" :: fallback_models) (build_context "hi" []) = .error e) ∧
    process_message agent_model_configs (fun _ _ => .error "down")
      ("nova-micro" :: fallback_models) "hi" [] = apologyText := by
  refine process_message_apology_on_exhaustion agent_model_configs
    (fun _ _ => .error "down") ("nova-micro" :: fallback_models) "hi" [] ?_
  intro m _
  exact Or.inr (fun t h => Except.noConfusion h)

theorem invoke_loop_first_success (configFmt : String → Option String)
    (call : String → String → Except String String) (prompt : String)
    (lastModel : Option String) (m t : String) (post : List String)
    (hm : configFmt m = some "nova") (hok : call m prompt = .ok t) :
    ∀ pre : List String,
      (∀ p ∈ pre, configFmt p = some "nova" → ∃ e, call p prompt = .error e) →
      (∀ p ∈ pre, lastModel ≠ some p) →
      invoke_loop configFmt call prompt lastModel (pre ++ m :: post) =
        (.ok t, pre.filter (fun x => decide (configFmt x = some "nova")) ++ [m]) := by
  intro pre
  induction pre with
  | nil =>
    intro _ _
    simp [invoke_loop, hm, hok]
  | cons p pre' ih =>
    intro hpre hlast
    have hpre' : ∀ q ∈ pre', configFmt q = some "nova" → ∃ e, call q prompt = .error e :=
      fun q hq => hpre q (List.mem_cons_of_mem p hq)
    have hlast' : ∀ q ∈ pre', lastModel ≠ some q :=
      fun q hq => hlast q (List.mem_cons_of_mem p hq)
    rw [List.cons_append]
    cases hc : configFmt p with
    | none =>
      rw [invoke_loop_cons_none _ hc, ih hpre' hlast']
      simp [List.filter, hc]
    | some fmt =>
      by_cases hf : fmt = "nova"
      · subst hf
        obtain ⟨e, he⟩ := hpre p (List.mem_cons_self p pre') hc
        have hnl : ¬(lastModel = some p) := hlast p (List.mem_cons_self p pre')
        rw [invoke_loop_cons_err_cont _ hc he hnl, ih hpre' hlast']
        simp [List.filter, hc]
      · rw [invoke_loop_cons_notNova _ hc hf, ih hpre' hlast']
        simp [List.filter, hc, hf]

/-- C1 (amended): for a duplicate-free candidate list in which every
candidate before `m` either lacks a registered `nova` adapter or fails,
while `m` has one and its call succeeds with text `t`, `_invoke_claude`
returns `t` and the only models called are the failing registered
candidates before `m`, then `m` itself — no candidate after the success is
ever called. -/
theorem invoke_first_success_wins (configFmt : String → Option String)
    (call : String → String → Except String String) (prompt : String)
    (pre post : List String) (m t : String)
    (hnd : (pre ++ m :: post).Nodup)
    (hm : configFmt m = some "nova")
    (hok : call m prompt = .ok t)
    (hpre : ∀ p ∈ pre, configFmt p = some "nova" → ∃ e, call p prompt = .error e) :
    invoke_claude_trace configFmt call (pre ++ m :: post) prompt =
      (.ok t, pre.filter (fun x => decide (configFmt x = some "nova")) ++ [m]) := by
  unfold invoke_claude_trace
  apply invoke_loop_first_success configFmt call prompt _ m t post hm hok pre hpre
  intro p hp
  have htail : (m :: post) ≠ [] := by simp
  have hlast : (pre ++ m :: post).getLast? = some ((m :: post).getLast htail) := by
    rw [List.getLast?_append, List.getLast?_eq_getLast (m :: post) htail]
    simp [Option.or_some]
  rw [hlast]
  intro hcontra
  have hLp : (m :: post).getLast htail = p := by
    injection hcontra.symm with h
    exact h.symm
  have hdisj := List.disjoint_of_nodup_append hnd
  exact hdisj hp (hLp ▸ List.getLast_mem htail)

/-- C1 counterexample: with duplicated candidate names the loop's
"last model" check fires early. Candidates `["a", "s", "a"]`, both `a` and
`s` registered with the `nova` format, `a` failing and `s` succeeding: the
list contains a succeeding registered candidate (`s`), yet `_invoke_claude`
re-raises `a`'s error instead of returning `s`'s text. -/
theorem invoke_first_success_cx :
    ("s" ∈ ["a", "s", "a"]) ∧
    cxConfig "s" = some "nova" ∧
    cxCall "s" "p" = .ok "good" ∧
    invoke_claude cxConfig cxCall ["a", "s", "a"] "p" = .error "boom" ∧
    invoke_claude cxConfig cxCall ["a", "s", "a"] "p" ≠ .ok "good" := by
  refine ⟨by decide, rfl, rfl, rfl, ?_⟩
  intro h
  have : Except.error (ε := String) (α := String) "boom" = .ok "good" := by
    rw [← h]; rfl
  exact Except.noConfusion this

/-! ## Theorems: job_searcher -/

theorem score_clamped_bounds (n : Nat) :
    (0 : Int) ≤ min 100 (max 0 (n : Int)) ∧ min 100 (max 0 (n : Int)) ≤ 100 :=
  ⟨le_min (by norm_num) (le_max_left 0 _), min_le_left _ _⟩

/-- C3: score extraction is total and always lands in [0, 100]: every regex
hit is clamped into the interval, and every sentiment-band fallback calls
`random.randint` on a sub-interval of [0, 100]. -/
theorem extract_match_score_in_range (analysis : String) (rnd : Int → Int → Int)
    (hrnd : ∀ a b : Int, a ≤ b → a ≤ rnd a b ∧ rnd a b ≤ b) :
    0 ≤ extract_match_score rnd analysis ∧ extract_match_score rnd analysis ≤ 100 := by
  unfold extract_match_score
  cases hx : reSearch (tryKeywordNumAt "score".data) analysis.data with
  | some n => exact score_clamped_bounds n
  | none =>
    cases hy : reSearch tryFracAt analysis.data with
    | some n => exact score_clamped_bounds n
    | none =>
      cases hz : reSearch (tryKeywordNumAt "match".data) analysis.data with
      | some n => exact score_clamped_bounds n
      | none =>
        simp only
        split_ifs
        · obtain ⟨ha, hb⟩ := hrnd 85 95 (by norm_num)
          constructor <;> linarith
        · obtain ⟨ha, hb⟩ := hrnd 70 84 (by norm_num)
          constructor <;> linarith
        · obtain ⟨ha, hb⟩ := hrnd 55 69 (by norm_num)
          constructor <;> linarith
        · obtain ⟨ha, hb⟩ := hrnd 40 70 (by norm_num)
          constructor <;> linarith

/-- C3 witness: instantiated at the empty string with the oracle that
returns the lower randint bound. -/
theorem extract_match_score_in_range_witness :
    0 ≤ extract_match_score (fun a _ => a) "" ∧
    extract_match_score (fun a _ => a) "" ≤ 100 :=
  extract_match_score_in_range "" (fun a _ => a) (fun _ _ h => ⟨le_refl _, h⟩)

/-- C7: an explicit score in the text is returned literally, for any
randomness oracle (so no random fallback is consulted): `"Match score: 82"`
yields 82 (first pattern) and `"91/100"` yields 91 (second pattern). -/
theorem extract_match_score_literal (rnd : Int → Int → Int) :
    extract_match_score rnd "Match score: 82" = 82 ∧
    extract_match_score rnd "91/100" = 91 :=
  ⟨rfl, rfl⟩

theorem insertByScore_length (x : AnalyzedJob) (l : List AnalyzedJob) :
    (insertByScore x l).length = l.length + 1 := by
  induction l with
  | nil => rfl
  | cons y ys ih =>
    simp only [insertByScore]
    split
    · simp
    · simp [ih]

theorem sortByScoreDesc_length (l : List AnalyzedJob) :
    (sortByScoreDesc l).length = l.length := by
  suffices h : ∀ acc : List AnalyzedJob,
      (l.foldl (fun acc x => insertByScore x acc) acc).length = acc.length + l.length by
    simpa using h []
  induction l with
  | nil => intro acc; simp
  | cons x xs ih =>
    intro acc
    simp only [List.foldl]
    rw [ih, insertByScore_length]
    simp only [List.length_cons]
    omega

theorem analyze_job_matches_length (call : Job → Option String)
    (rnd : Int → Int → Int) (ts : String) (jobs : List Job) :
    (analyze_job_matches call rnd ts jobs).length = jobs.length := by
  simp [analyze_job_matches, sortByScoreDesc_length]

theorem filter_jobs_length (g : GenOracle) (role location experience_level : String) :
    (filter_jobs g role location experience_level).length =
      min 10
        (if (job_database.filter (fun job =>
              title_match_test (splitWsS (lowerS role)) job &&
              location_match_test location job)).length < 3 then 5
         else (job_database.filter (fun job =>
              title_match_test (splitWsS (lowerS role)) job &&
              location_match_test location job)).length) := by
  unfold filter_jobs
  by_cases h : (job_database.filter (fun job =>
      title_match_test (splitWsS (lowerS role)) job &&
      location_match_test location job)).length < 3
  · simp only [if_pos h, List.length_take, List.length_append]
    have hgen : (generate_additional_jobs g role location
        (5 - (job_database.filter (fun job =>
          title_match_test (splitWsS (lowerS role)) job &&
          location_match_test location job)).length)).length =
        5 - (job_database.filter (fun job =>
          title_match_test (splitWsS (lowerS role)) job &&
          location_match_test location job)).length := by
      simp [generate_additional_jobs]
    rw [hgen]
    omega
  · simp only [if_neg h, List.length_take]

/-- C10: for every role, location and experience level, `_filter_jobs`
returns a non-empty list (padded to exactly 5 entries whenever fewer than 3
database jobs match, capped at 10), so the `No Jobs Found` branch of
`_format_job_results` is never taken on the path from `search`. -/
theorem filter_jobs_never_empty (g : GenOracle) (call : Job → Option String)
    (rnd : Int → Int → Int) (ts role location experience_level : String) :
    filter_jobs g role location experience_level ≠ [] ∧
    (filter_jobs g role location experience_level).length ≤ 10 ∧
    ((job_database.filter (fun job =>
        title_match_test (splitWsS (lowerS role)) job &&
        location_match_test location job)).length < 3 →
      (filter_jobs g role location experience_level).length = 5) ∧
    format_job_results
        (analyze_job_matches call rnd ts (filter_jobs g role location experience_level))
        role location =
      job_results_body
        (analyze_job_matches call rnd ts (filter_jobs g role location experience_level))
        role location := by
  have hbase : 3 ≤ (job_database.filter (fun job =>
      title_match_test (splitWsS (lowerS role)) job &&
      location_match_test location job)).length ∨
      (job_database.filter (fun job =>
      title_match_test (splitWsS (lowerS role)) job &&
      location_match_test location job)).length < 3 := by omega
  have hlen := filter_jobs_length g role location experience_level
  have hpos : 0 < (filter_jobs g role location experience_level).length := by
    rw [hlen]
    split
    · omega
    · omega
  have hne : filter_jobs g role location experience_level ≠ [] := by
    intro hnil
    rw [hnil] at hpos
    simp at hpos
  refine ⟨hne, ?_, ?_, ?_⟩
  · rw [hlen]; omega
  · intro h
    rw [hlen, if_pos h]
    omega
  · have hane : (analyze_job_matches call rnd ts
        (filter_jobs g role location experience_level)).length ≠ 0 := by
      rw [analyze_job_matches_length]
      omega
    have : (analyze_job_matches call rnd ts
        (filter_jobs g role location experience_level)).isEmpty = false := by
      cases hA : analyze_job_matches call rnd ts
          (filter_jobs g role location experience_level) with
      | nil => rw [hA] at hane; simp at hane
      | cons a l => simp
    simp [format_job_results, this]

/-- C10 witness: a concrete role/location with the trivial oracles. -/
theorem filter_jobs_never_empty_witness :
    filter_jobs trivialGenOracle "quant researcher" "Paris" "senior" ≠ [] ∧
    (filter_jobs trivialGenOracle "quant researcher" "Paris" "senior").length ≤ 10 ∧
    ((job_database.filter (fun job =>
        title_match_test (splitWsS (lowerS "quant researcher")) job &&
        location_match_test "Paris" job)).length < 3 →
      (filter_jobs trivialGenOracle "quant researcher" "Paris" "senior").length = 5) ∧
    format_job_results
        (analyze_job_matches (fun _ => none) (fun a _ => a) "ts"
          (filter_jobs trivialGenOracle "quant researcher" "Paris" "senior"))
        "quant researcher" "Paris" =
      job_results_body
        (analyze_job_matches (fun _ => none) (fun a _ => a) "ts"
          (filter_jobs trivialGenOracle "quant researcher" "Paris" "senior"))
        "quant researcher" "Paris" :=
  filter_jobs_never_empty trivialGenOracle (fun _ => none) (fun a _ => a) "ts"
    "quant researcher" "Paris" "senior"

/-! ## Theorems: section parsers (C4, C5) -/

theorem career_step_no_trigger (raw : String)
    (ht : career_trigger (stripS raw) = false) :
    parse_career_step ([], []) raw = ([], []) := by
  by_cases hb : stripS raw = ""
  · simp [parse_career_step, hb, List.isEmpty]
  · simp only [career_trigger, Bool.or_eq_false_iff] at ht
    obtain ⟨⟨⟨⟨⟨h1, h2⟩, h3⟩, h4⟩, h5⟩, h6⟩ := ht
    simp [parse_career_step, hb, h1, h2, h3, h4, h5, h6]

theorem career_fold_no_trigger (lines : List String)
    (h : ∀ raw ∈ lines, career_trigger (stripS raw) = false) :
    lines.foldl parse_career_step ([], []) = ([], []) := by
  induction lines with
  | nil => rfl
  | cons raw rest ih =>
    simp only [List.foldl,
      career_step_no_trigger raw (h raw (List.mem_cons_self raw rest))]
    exact ih (fun r hr => h r (List.mem_cons_of_mem raw hr))

theorem resume_step_no_trigger_none (init : ResumeSections) (raw : String)
    (h : resumeTrigger (lowerS (stripS raw)) = none) :
    parse_resume_step (init, none) raw = (init, none) := by
  by_cases hb : stripS raw = ""
  · simp [parse_resume_step, hb]
  · simp [parse_resume_step, hb, h]

theorem resume_fold_no_trigger (init : ResumeSections) (lines : List String)
    (h : ∀ raw ∈ lines, resumeTrigger (lowerS (stripS raw)) = none) :
    parse_resume_lines (init, none) lines = (init, none) := by
  induction lines with
  | nil => rfl
  | cons raw rest ih =>
    simp only [parse_resume_lines, List.foldl,
      resume_step_no_trigger_none init raw (h raw (List.mem_cons_self raw rest))]
    exact ih (fun r hr => h r (List.mem_cons_of_mem raw hr))

/-- C4 (amended): a completion in which no line fires any branch keyword is
kept in full by the career-suggestion parser, under the default
`Custom Career Path` suggestion with the whole text as description; the
resume-content parser, by contrast, has no overflow field, and such a
completion leaves every content section empty (the text is discarded). -/
theorem unrecognized_completion_fate :
    (∀ text : String,
      (∀ raw ∈ linesOf text, career_trigger (stripS raw) = false) →
      parse_career_suggestions text =
        [[("title", "Custom Career Path"), ("description", text)]]) ∧
    (∀ content personal_info : String,
      (∀ raw ∈ linesOf content, resumeTrigger (lowerS (stripS raw)) = none) →
      (parse_resume_content content personal_info).summary = "" ∧
      (parse_resume_content content personal_info).skills = "" ∧
      (parse_resume_content content personal_info).experience = "" ∧
      (parse_resume_content content personal_info).education = "" ∧
      (parse_resume_content content personal_info).projects = "") := by
  constructor
  · intro text h
    unfold parse_career_suggestions
    rw [career_fold_no_trigger (linesOf text) h]
    simp [List.isEmpty]
  · intro content personal_info h
    unfold parse_resume_content
    rw [resume_fold_no_trigger _ (linesOf content) h]
    exact ⟨rfl, rfl, rfl, rfl, rfl⟩

/-- C4 witness: instances of both conjuncts at trigger-free texts. -/
theorem unrecognized_completion_fate_witness :
    parse_career_suggestions "Hello there" =
      [[("title", "Custom Career Path"), ("description", "Hello there")]] ∧
    (parse_resume_content "Hello world" "").summary = "" ∧
    (parse_resume_content "Hello world" "").skills = "" ∧
    (parse_resume_content "Hello world" "").experience = "" ∧
    (parse_resume_content "Hello world" "").education = "" ∧
    (parse_resume_content "Hello world" "").projects = "" :=
  ⟨unrecognized_completion_fate.1 "Hello there" (by decide),
   unrecognized_completion_fate.2 "Hello world" "" (by decide)⟩

/-- C4 counterexample: the resume-content parser drops a wholly
unrecognized completion. On `"Hello world"` every section of the result is
empty (the record is exactly the initial one) — the text appears in no
default/overflow field, contradicting the claim for this parser. -/
theorem parse_resume_discards_cx :
    parse_resume_content "Hello world" "" =
      { name := "Your Name", contact_info := "Contact Information",
        summary := "", skills := "", experience := "", education := "",
        projects := "" } := by decide

/-- C5 (amended): the line scan of the resume-content parser: a non-blank
line whose lowering contains a trigger keyword switches the current
section; a non-blank, non-trigger, non-`#` line is appended (stripped, with
a trailing newline) to the current section; a blank line is skipped with
*no* effect — in particular it does not close the current section; before
any trigger, non-trigger lines are discarded. On the concrete two-section
input the stated result holds. -/
theorem resume_section_scan :
    ((parse_resume_content "Summary:\nGreat candidate.\n\nSkills:\nPython, SQL" "").summary =
        "Great candidate.\n" ∧
     (parse_resume_content "Summary:\nGreat candidate.\n\nSkills:\nPython, SQL" "").skills =
        "Python, SQL\n") ∧
    (∀ (st : ResumeSections × Option ResumeField) (line : String) (f : ResumeField),
      resumeTrigger (lowerS (stripS line)) = some f → stripS line ≠ "" →
      parse_resume_step st line = (st.1, some f)) ∧
    (∀ (st : ResumeSections × Option ResumeField) (f : ResumeField) (line : String),
      st.2 = some f → resumeTrigger (lowerS (stripS line)) = none →
      stripS line ≠ "" → startsWithS "#" (stripS line) = false →
      parse_resume_step st line = (appendSection st.1 f (stripS line), some f)) ∧
    (∀ (st : ResumeSections × Option ResumeField) (line : String),
      stripS line = "" → parse_resume_step st line = st) ∧
    (∀ (st : ResumeSections × Option ResumeField) (line : String),
      st.2 = none → resumeTrigger (lowerS (stripS line)) = none →
      parse_resume_step st line = st) := by
  refine ⟨⟨by decide, by decide⟩, ?_, ?_, ?_, ?_⟩
  · intro st line f htrig hne
    simp [parse_resume_step, hne, htrig]
  · intro st f line hf htrig hne hhash
    simp [parse_resume_step, hne, htrig, hf, hhash]
  · intro st line hb
    simp [parse_resume_step, hb]
  · intro st line hcur htrig
    by_cases hb : stripS line = ""
    · simp [parse_resume_step, hb]
    · simp [parse_resume_step, hb, htrig, hcur]

/-- C5 witness: the scan lemmas at concrete inputs (a blank line leaves the
state untouched; a `Skills:` line switches the section). -/
theorem resume_section_scan_witness :
    parse_resume_step
      ({ name := "n", contact_info := "c", summary := "", skills := "",
         experience := "", education := "", projects := "" }, none) "  " =
      ({ name := "n", contact_info := "c", summary := "", skills := "",
         experience := "", education := "", projects := "" }, none) ∧
    parse_resume_step
      ({ name := "n", contact_info := "c", summary := "", skills := "",
         experience := "", education := "", projects := "" }, none) "Skills:" =
      ({ name := "n", contact_info := "c", summary := "", skills := "",
         experience := "", education := "", projects := "" }, some .skills) :=
  ⟨resume_section_scan.2.2.2.1 _ "  " (by decide),
   resume_section_scan.2.1 _ "Skills:" .skills (by decide) (by decide)⟩

/-- C5 counterexample: a blank line does not close the current section: on
`"Summary:\nA\n\nB"` the line `B` after the blank line is still appended to
the summary section, so the summary is `"A\nB\n"`, not `"A\n"` as the
claim's blank-line-closes rule predicts. -/
theorem blank_line_keeps_section_cx :
    (parse_resume_content "Summary:\nA\n\nB" "").summary = "A\nB\n" ∧
    (parse_resume_content "Summary:\nA\n\nB" "").summary ≠ "A\n" := by decide

/-- C1 witness: the agent's real configuration (primary `nova-micro`, then
the two unregistered Claude fallbacks) with a succeeding call: the text of
the primary is returned and only `nova-micro` is called. -/
theorem invoke_first_success_witness :
    invoke_claude_trace agent_model_configs
      (fun m _ => if m = "nova-micro" then .ok "hello" else .error "nope")
      ("nova-micro" :: fallback_models) "p" = (.ok "hello", ["nova-micro"]) := by
  have h := invoke_first_success_wins agent_model_configs
    (fun m _ => if m = "nova-micro" then .ok "hello" else .error "nope")
    "p" [] fallback_models "nova-micro" "hello"
    (by decide) (by decide) rfl
    (by intro p hp; simp at hp)
  simpa using h

/-! ## Theorems: career planner (C8) -/

theorem roadmap_explicit (call : String → Option String)
    (s1 s2 s3 : SuggDict) (rest : List SuggDict) (skills experience : String)
    (hd12 : (dlookup s1 "title").getD "Career Path 1" ≠ (dlookup s2 "title").getD "Career Path 2")
    (hd13 : (dlookup s1 "title").getD "Career Path 1" ≠ (dlookup s3 "title").getD "Career Path 3")
    (hd23 : (dlookup s2 "title").getD "Career Path 2" ≠ (dlookup s3 "title").getD "Career Path 3") :
    create_career_roadmaps call (s1 :: s2 :: s3 :: rest) skills experience =
      [((dlookup s1 "title").getD "Career Path 1", roadmap_outcome call skills experience 0 s1),
       ((dlookup s2 "title").getD "Career Path 2", roadmap_outcome call skills experience 1 s2),
       ((dlookup s3 "title").getD "Career Path 3", roadmap_outcome call skills experience 2 s3)] := by
  have hb1 : ("Career Path " ++ toString (0 + 1) : String) = "Career Path 1" := rfl
  have hb2 : ("Career Path " ++ toString (1 + 1) : String) = "Career Path 2" := rfl
  have hb3 : ("Career Path " ++ toString (2 + 1) : String) = "Career Path 3" := rfl
  unfold create_career_roadmaps
  simp only [List.take, create_roadmaps_go, roadmap_outcome, hb1, hb2, hb3]
  cases call (roadmap_prompt ((dlookup s1 "title").getD "Career Path 1") skills experience
      ((dlookup s1 "description").getD ((dlookup s1 "title").getD "Career Path 1"))) <;>
  cases call (roadmap_prompt ((dlookup s2 "title").getD "Career Path 2") skills experience
      ((dlookup s2 "description").getD ((dlookup s2 "title").getD "Career Path 2"))) <;>
  cases call (roadmap_prompt ((dlookup s3 "title").getD "Career Path 3") skills experience
      ((dlookup s3 "description").getD ((dlookup s3 "title").getD "Career Path 3"))) <;>
  simp [dinsert, hd12, hd13, hd23]

theorem dlookup_cons_hit (k v : String) (d : SuggDict) :
    dlookup ((k, v) :: d) k = some v := by
  simp [dlookup, List.find?]

theorem dlookup_cons_miss (k0 k v : String) (d : SuggDict) (h : k0 ≠ k) :
    dlookup ((k0, v) :: d) k = dlookup d k := by
  simp [dlookup, List.find?, h]

/-- C8 (amended): provided the top-3 suggestions have pairwise distinct
titles (the roadmap dict is keyed by title), each suggestion's roadmap
entry is exactly its own call outcome — the model text on success, the
fixed placeholder `Roadmap temporarily unavailable.` when its call raises —
so a failure in one step is isolated to that step; and the formatted report
renders all three suggestion blocks, each including its roadmap section
with that outcome. -/
theorem roadmap_failure_isolated (call : String → Option String)
    (s1 s2 s3 : SuggDict) (rest : List SuggDict) (skills experience : String)
    (hd12 : (dlookup s1 "title").getD "Career Path 1" ≠ (dlookup s2 "title").getD "Career Path 2")
    (hd13 : (dlookup s1 "title").getD "Career Path 1" ≠ (dlookup s3 "title").getD "Career Path 3")
    (hd23 : (dlookup s2 "title").getD "Career Path 2" ≠ (dlookup s3 "title").getD "Career Path 3") :
    dlookup (create_career_roadmaps call (s1 :: s2 :: s3 :: rest) skills experience)
        ((dlookup s1 "title").getD "Career Path 1") =
      some (roadmap_outcome call skills experience 0 s1) ∧
    dlookup (create_career_roadmaps call (s1 :: s2 :: s3 :: rest) skills experience)
        ((dlookup s2 "title").getD "Career Path 2") =
      some (roadmap_outcome call skills experience 1 s2) ∧
    dlookup (create_career_roadmaps call (s1 :: s2 :: s3 :: rest) skills experience)
        ((dlookup s3 "title").getD "Career Path 3") =
      some (roadmap_outcome call skills experience 2 s3) ∧
    format_career_suggestions (s1 :: s2 :: s3 :: rest)
        (create_career_roadmaps call (s1 :: s2 :: s3 :: rest) skills experience) =
      "## ðŸš€ Personalized Career Path Suggestions\n\n" ++
        render_suggestion_block 1 s1
          (create_career_roadmaps call (s1 :: s2 :: s3 :: rest) skills experience) ++
        render_suggestion_block 2 s2
          (create_career_roadmaps call (s1 :: s2 :: s3 :: rest) skills experience) ++
        render_suggestion_block 3 s3
          (create_career_roadmaps call (s1 :: s2 :: s3 :: rest) skills experience) ++
        career_next_steps ∧
    render_suggestion_block 1 s1
        (create_career_roadmaps call (s1 :: s2 :: s3 :: rest) skills experience) =
      "### " ++ toString 1 ++ ". " ++ (dlookup s1 "title").getD "Career Path 1" ++ "\n\n" ++
        render_suggestion_details s1 ++
        ("#### ðŸ“‹ 12-Month Roadmap for " ++ (dlookup s1 "title").getD "Career Path 1" ++
          "\n\n" ++ roadmap_outcome call skills experience 0 s1 ++ "\n\n") ++ "---\n\n" ∧
    render_suggestion_block 2 s2
        (create_career_roadmaps call (s1 :: s2 :: s3 :: rest) skills experience) =
      "### " ++ toString 2 ++ ". " ++ (dlookup s2 "title").getD "Career Path 2" ++ "\n\n" ++
        render_suggestion_details s2 ++
        ("#### ðŸ“‹ 12-Month Roadmap for " ++ (dlookup s2 "title").getD "Career Path 2" ++
          "\n\n" ++ roadmap_outcome call skills experience 1 s2 ++ "\n\n") ++ "---\n\n" ∧
    render_suggestion_block 3 s3
        (create_career_roadmaps call (s1 :: s2 :: s3 :: rest) skills experience) =
      "### " ++ toString 3 ++ ". " ++ (dlookup s3 "title").getD "Career Path 3" ++ "\n\n" ++
        render_suggestion_details s3 ++
        ("#### ðŸ“‹ 12-Month Roadmap for " ++ (dlookup s3 "title").getD "Career Path 3" ++
          "\n\n" ++ roadmap_outcome call skills experience 2 s3 ++ "\n\n") ++ "---\n\n" := by
  have hR := roadmap_explicit call s1 s2 s3 rest skills experience hd12 hd13 hd23
  have hc1 : ("Career Path " ++ toString (1 : Nat) : String) = "Career Path 1" := rfl
  have hc2 : ("Career Path " ++ toString (2 : Nat) : String) = "Career Path 2" := rfl
  have hc3 : ("Career Path " ++ toString (3 : Nat) : String) = "Career Path 3" := rfl
  have hl1 : dlookup (create_career_roadmaps call (s1 :: s2 :: s3 :: rest) skills experience)
      ((dlookup s1 "title").getD "Career Path 1") =
      some (roadmap_outcome call skills experience 0 s1) := by
    rw [hR]; simp [dlookup]
  have hl2 : dlookup (create_career_roadmaps call (s1 :: s2 :: s3 :: rest) skills experience)
      ((dlookup s2 "title").getD "Career Path 2") =
      some (roadmap_outcome call skills experience 1 s2) := by
    rw [hR, dlookup_cons_miss _ _ _ _ hd12, dlookup_cons_hit]
  have hl3 : dlookup (create_career_roadmaps call (s1 :: s2 :: s3 :: rest) skills experience)
      ((dlookup s3 "title").getD "Career Path 3") =
      some (roadmap_outcome call skills experience 2 s3) := by
    rw [hR, dlookup_cons_miss _ _ _ _ hd13, dlookup_cons_miss _ _ _ _ hd23, dlookup_cons_hit]
  have hm1 : dmem (create_career_roadmaps call (s1 :: s2 :: s3 :: rest) skills experience)
      ((dlookup s1 "title").getD "Career Path 1") = true := by
    rw [hR]; simp [dmem]
  have hm2 : dmem (create_career_roadmaps call (s1 :: s2 :: s3 :: rest) skills experience)
      ((dlookup s2 "title").getD "Career Path 2") = true := by
    rw [hR]; simp [dmem]
  have hm3 : dmem (create_career_roadmaps call (s1 :: s2 :: s3 :: rest) skills experience)
      ((dlookup s3 "title").getD "Career Path 3") = true := by
    rw [hR]; simp [dmem]
  have hb1 : render_suggestion_block 1 s1
      (create_career_roadmaps call (s1 :: s2 :: s3 :: rest) skills experience) =
      "### " ++ toString 1 ++ ". " ++ (dlookup s1 "title").getD "Career Path 1" ++ "\n\n" ++
        render_suggestion_details s1 ++
        ("#### ðŸ“‹ 12-Month Roadmap for " ++ (dlookup s1 "title").getD "Career Path 1" ++
          "\n\n" ++ roadmap_outcome call skills experience 0 s1 ++ "\n\n") ++ "---\n\n" := by
    unfold render_suggestion_block
    simp only [hc1, hm1, hl1, if_true, Option.getD_some]
  have hb2 : render_suggestion_block 2 s2
      (create_career_roadmaps call (s1 :: s2 :: s3 :: rest) skills experience) =
      "### " ++ toString 2 ++ ". " ++ (dlookup s2 "title").getD "Career Path 2" ++ "\n\n" ++
        render_suggestion_details s2 ++
        ("#### ðŸ“‹ 12-Month Roadmap for " ++ (dlookup s2 "title").getD "Career Path 2" ++
          "\n\n" ++ roadmap_outcome call skills experience 1 s2 ++ "\n\n") ++ "---\n\n" := by
    unfold render_suggestion_block
    simp only [hc2, hm2, hl2, if_true, Option.getD_some]
  have hb3 : render_suggestion_block 3 s3
      (create_career_roadmaps call (s1 :: s2 :: s3 :: rest) skills experience) =
      "### " ++ toString 3 ++ ". " ++ (dlookup s3 "title").getD "Career Path 3" ++ "\n\n" ++
        render_suggestion_details s3 ++
        ("#### ðŸ“‹ 12-Month Roadmap for " ++ (dlookup s3 "title").getD "Career Path 3" ++
          "\n\n" ++ roadmap_outcome call skills experience 2 s3 ++ "\n\n") ++ "---\n\n" := by
    unfold render_suggestion_block
    simp only [hc3, hm3, hl3, if_true, Option.getD_some]
  refine ⟨hl1, hl2, hl3, ?_, hb1, hb2, hb3⟩
  unfold format_career_suggestions
  simp only [List.take, render_suggestions_go]
  apply String.ext
  simp [String.data_append, List.append_assoc]


set_option maxRecDepth 10000 in
/-- C8 counterexample: the roadmap dict is keyed by *title*, so with two
suggestions sharing the title `X` (different descriptions, hence different
prompts), a failure on the second overwrites the first's successfully
generated roadmap `R1` with the placeholder: isolation fails for
duplicate-title suggestion lists. -/
theorem roadmap_overwrite_cx :
    cxRoadmapCall (roadmap_prompt "X" "sk" "exp" "alpha") = some "R1" ∧
    create_career_roadmaps cxRoadmapCall [cxSugg1, cxSugg2, cxSugg3] "sk" "exp" =
      [("X", "Roadmap temporarily unavailable."), ("Y", "R3")] ∧
    dlookup (create_career_roadmaps cxRoadmapCall [cxSugg1, cxSugg2, cxSugg3] "sk" "exp")
      "X" ≠ some "R1" := by decide

set_option maxRecDepth 10000 in
/-- C8 witness: three distinct titles, the middle call raising: the middle
entry is the placeholder, the neighbours keep their texts. -/
theorem roadmap_failure_isolated_witness :
    dlookup (create_career_roadmaps wRoadmapCall [wS1, wS2, wS3] "sk" "exp") "A" =
      some "OK" ∧
    dlookup (create_career_roadmaps wRoadmapCall [wS1, wS2, wS3] "sk" "exp") "B" =
      some roadmap_placeholder ∧
    dlookup (create_career_roadmaps wRoadmapCall [wS1, wS2, wS3] "sk" "exp") "C" =
      some "OK" := by
  have h := roadmap_failure_isolated wRoadmapCall wS1 wS2 wS3 [] "sk" "exp"
    (by decide) (by decide) (by decide)
  exact ⟨h.1, h.2.1, h.2.2.1⟩

/-! ## Theorems: resume format/parse round trip (C6) -/

theorem string_data_mk (l : List Char) : (String.mk l).data = l := rfl

theorem string_mk_data (s : String) : String.mk s.data = s := by cases s; rfl

theorem splitOnChar_cons_sep (sep : Char) (x : List Char) :
    splitOnChar sep (sep :: x) = [] :: splitOnChar sep x := by
  simp [splitOnChar]

theorem splitOnChar_append_sep (sep : Char) (x y : List Char) :
    splitOnChar sep (x ++ sep :: y) = splitOnChar sep x ++ splitOnChar sep y := by
  induction x with
  | nil => simp [splitOnChar]
  | cons c cs ih =>
    by_cases h : c = sep
    · subst h
      rw [List.cons_append, splitOnChar_cons_sep, splitOnChar_cons_sep, ih]
      rfl
    · rw [List.cons_append]
      simp only [splitOnChar, if_neg h, ih]
      cases hcs : splitOnChar sep cs with
      | nil => exact absurd hcs (splitOnChar_ne_nil sep cs)
      | cons l ls => simp

theorem splitOnChar_no_sep (sep : Char) (x : List Char) (h : sep ∉ x) :
    splitOnChar sep x = [x] := by
  induction x with
  | nil => rfl
  | cons c cs ih =>
    have hc : ¬(c = sep) := fun hh => h (by subst hh; exact List.mem_cons_self c cs)
    simp only [splitOnChar, if_neg hc]
    rw [ih (fun hm => h (List.mem_cons_of_mem c hm))]

theorem mem_splitOnChar_no_sep (sep : Char) (l : List Char) :
    ∀ part ∈ splitOnChar sep l, sep ∉ part := by
  induction l with
  | nil =>
    intro part hp
    simp [splitOnChar] at hp
    simp [hp]
  | cons c cs ih =>
    intro part hp
    by_cases h : c = sep
    · subst h
      rw [splitOnChar_cons_sep] at hp
      rcases List.mem_cons.mp hp with h1 | h1
      · simp [h1]
      · exact ih part h1
    · simp only [splitOnChar, if_neg h] at hp
      cases hcs : splitOnChar sep cs with
      | nil => exact absurd hcs (splitOnChar_ne_nil sep cs)
      | cons l0 ls =>
        rw [hcs] at hp
        rcases List.mem_cons.mp hp with h1 | h1
        · subst h1
          intro hmem
          rcases List.mem_cons.mp hmem with h2 | h2
          · exact h h2.symm
          · exact ih l0 (by rw [hcs]; exact List.mem_cons_self l0 ls) h2
        · exact ih part (by rw [hcs]; exact List.mem_cons_of_mem l0 h1)

theorem dropWhile_eq_self_of_head (p : Char → Bool) (l : List Char)
    (h : ∀ c, l.head? = some c → p c = false) : List.dropWhile p l = l := by
  cases l with
  | nil => rfl
  | cons c cs =>
    rw [List.dropWhile_cons, if_neg]
    simp [h c rfl]

theorem head?_dropWhile_not (p : Char → Bool) (l : List Char) (c : Char)
    (h : (List.dropWhile p l).head? = some c) : p c = false := by
  cases hd : List.dropWhile p l with
  | nil => rw [hd] at h; exact absurd h (by simp)
  | cons a t =>
    rw [hd] at h
    have ha : a = c := by injection h
    subst ha
    have := List.head_dropWhile_not p l (by rw [hd]; simp)
    rwa [show (List.dropWhile p l).head (by rw [hd]; simp) = a from by
      simp [hd]] at this

theorem getLast?_of_suffix {l₁ l₂ : List Char} (h : l₁ <:+ l₂) (hne : l₁ ≠ []) :
    l₂.getLast? = l₁.getLast? := by
  obtain ⟨t, rfl⟩ := h
  rw [List.getLast?_append]
  cases hl : l₁.getLast? with
  | none => exact absurd (List.getLast?_eq_none_iff.mp hl) hne
  | some a => simp [Option.or]

theorem stripL_head_not_ws (l : List Char) (c : Char)
    (h : (stripL l).head? = some c) : pyWs c = false := by
  unfold stripL at h
  rw [List.head?_reverse] at h
  set w := List.dropWhile pyWs (List.dropWhile pyWs l).reverse with hw
  have hwne : w ≠ [] := by
    intro hnil
    rw [hnil] at h
    exact absurd h (by simp)
  have hsuf : w <:+ (List.dropWhile pyWs l).reverse := List.dropWhile_suffix pyWs
  have := getLast?_of_suffix hsuf hwne
  rw [h] at this
  rw [List.getLast?_reverse] at this
  exact head?_dropWhile_not pyWs l c this

theorem stripL_last_not_ws (l : List Char) (c : Char)
    (h : (stripL l).getLast? = some c) : pyWs c = false := by
  unfold stripL at h
  rw [List.getLast?_reverse] at h
  exact head?_dropWhile_not pyWs _ c h

theorem stripL_eq_self (l : List Char)
    (h1 : ∀ c, l.head? = some c → pyWs c = false)
    (h2 : ∀ c, l.getLast? = some c → pyWs c = false) : stripL l = l := by
  unfold stripL
  rw [dropWhile_eq_self_of_head pyWs l h1]
  rw [dropWhile_eq_self_of_head pyWs l.reverse
    (fun c hc => h2 c (by rwa [List.head?_reverse] at hc))]
  exact List.reverse_reverse l

theorem stripL_idem (l : List Char) : stripL (stripL l) = stripL l :=
  stripL_eq_self _ (stripL_head_not_ws l) (stripL_last_not_ws l)

theorem stripS_idem (s : String) : stripS (stripS s) = stripS s := by
  apply String.ext
  show stripL (stripL s.data) = stripL s.data
  exact stripL_idem s.data

theorem linesGlue_data (l : String) (ls : List String) :
    (linesGlue (l :: ls)).data = l.data ++ '\n' :: (linesGlue ls).data := by
  show (l ++ "\n" ++ linesGlue ls).data = _
  have hnl : ("\n" : String).data = ['\n'] := rfl
  simp [String.data_append, hnl]

theorem linesGlue_concat (ls : List String) (x : String) :
    linesGlue (ls ++ [x]) = linesGlue ls ++ x ++ "\n" := by
  induction ls with
  | nil =>
    show linesGlue [x] = "" ++ x ++ "\n"
    apply String.ext
    simp [linesGlue, String.data_append]
  | cons l ls ih =>
    show linesGlue (l :: (ls ++ [x])) = linesGlue (l :: ls) ++ x ++ "\n"
    apply String.ext
    rw [linesGlue_data]
    simp only [String.data_append, linesGlue_data]
    rw [congrArg String.data ih]
    simp [String.data_append, List.append_assoc]

theorem splitOnChar_glue (ls : List String) (rest : List Char)
    (h : ∀ l ∈ ls, '\n' ∉ l.data) :
    splitOnChar '\n' ((linesGlue ls).data ++ rest) =
      ls.map String.data ++ splitOnChar '\n' rest := by
  induction ls with
  | nil =>
    show splitOnChar '\n' (("" : String).data ++ rest) = _
    simp
  | cons l ls ih =>
    rw [linesGlue_data, List.append_assoc, List.cons_append]
    rw [splitOnChar_append_sep, splitOnChar_no_sep '\n' l.data
      (h l (List.mem_cons_self l ls))]
    rw [ih (fun r hr => h r (List.mem_cons_of_mem l hr))]
    simp

theorem resume_step_blank (st : ResumeSections × Option ResumeField) (raw : String)
    (h : stripS raw = "") : parse_resume_step st raw = st := by
  simp [parse_resume_step, h]

theorem resume_step_trigger (st : ResumeSections × Option ResumeField) (raw : String)
    (f : ResumeField) (ht : resumeTrigger (lowerS (stripS raw)) = some f)
    (hne : stripS raw ≠ "") : parse_resume_step st raw = (st.1, some f) := by
  simp [parse_resume_step, hne, ht]

theorem resume_step_append (sec : ResumeSections) (f : ResumeField) (raw : String)
    (ht : resumeTrigger (lowerS (stripS raw)) = none) (hne : stripS raw ≠ "")
    (hh : startsWithS "#" (stripS raw) = false) :
    parse_resume_step (sec, some f) raw = (appendSection sec f (stripS raw), some f) := by
  simp [parse_resume_step, hne, ht, hh]

theorem resume_step_skip_none (sec : ResumeSections) (raw : String)
    (ht : resumeTrigger (lowerS (stripS raw)) = none) :
    parse_resume_step (sec, none) raw = (sec, none) := by
  by_cases hb : stripS raw = ""
  · simp [parse_resume_step, hb]
  · simp [parse_resume_step, hb, ht]

theorem resume_step_clean (sec : ResumeSections) (f : ResumeField) (l : String)
    (hc : CleanLine l) :
    parse_resume_step (sec, some f) l = (appendSection sec f l, some f) := by
  obtain ⟨hstrip, hne, hhash, htrig, _⟩ := hc
  rw [resume_step_append sec f l (by rwa [hstrip]) (by rwa [hstrip]) (by rwa [hstrip])]
  rw [hstrip]

theorem appendSection_eq_update (sec : ResumeSections) (f : ResumeField) (l : String) :
    appendSection sec f l = updateSection sec f (getSection sec f ++ l ++ "\n") := by
  cases f <;> rfl

theorem getSection_update (sec : ResumeSections) (f : ResumeField) (v : String) :
    getSection (updateSection sec f v) f = v := by
  cases f <;> rfl

theorem getSection_update_other (sec : ResumeSections) (f g : ResumeField) (v : String)
    (h : f ≠ g) : getSection (updateSection sec f v) g = getSection sec g := by
  cases f <;> cases g <;> first | exact absurd rfl h | rfl

theorem update_update (sec : ResumeSections) (f : ResumeField) (v w : String) :
    updateSection (updateSection sec f v) f w = updateSection sec f w := by
  cases f <;> rfl

theorem update_self (sec : ResumeSections) (f : ResumeField) :
    updateSection sec f (getSection sec f) = sec := by
  cases f <;> rfl

theorem parse_fold_clean (f : ResumeField) (ls : List String)
    (h : ∀ l ∈ ls, CleanLine l) :
    ∀ sec : ResumeSections, parse_resume_lines (sec, some f) ls =
      (updateSection sec f (getSection sec f ++ linesGlue ls), some f) := by
  induction ls with
  | nil =>
    intro sec
    show (sec, some f) = _
    rw [show linesGlue [] = "" from rfl, string_append_empty, update_self]
  | cons l ls ih =>
    intro sec
    show parse_resume_lines (parse_resume_step (sec, some f) l) ls = _
    rw [resume_step_clean sec f l (h l (List.mem_cons_self l ls))]
    rw [ih (fun r hr => h r (List.mem_cons_of_mem l hr)) (appendSection sec f l)]
    rw [appendSection_eq_update, getSection_update, update_update]
    show (updateSection sec f (getSection sec f ++ l ++ "\n" ++ linesGlue ls), some f) = _
    rw [show linesGlue (l :: ls) = l ++ "\n" ++ linesGlue ls from rfl]
    rw [string_append_assoc, string_append_assoc, string_append_assoc]

theorem updateSection_name (sec : ResumeSections) (f : ResumeField) (v : String) :
    (updateSection sec f v).name = sec.name ∧
    (updateSection sec f v).contact_info = sec.contact_info := by
  cases f <;> exact ⟨rfl, rfl⟩

theorem parse_step_preserves_id (st : ResumeSections × Option ResumeField) (raw : String) :
    (parse_resume_step st raw).1.name = st.1.name ∧
    (parse_resume_step st raw).1.contact_info = st.1.contact_info := by
  by_cases hb : stripS raw = ""
  · rw [resume_step_blank st raw hb]; exact ⟨rfl, rfl⟩
  · cases ht : resumeTrigger (lowerS (stripS raw)) with
    | some f => rw [resume_step_trigger st raw f ht hb]; exact ⟨rfl, rfl⟩
    | none =>
      rcases st with ⟨sec, cur⟩
      cases cur with
      | none => rw [resume_step_skip_none sec raw ht]; exact ⟨rfl, rfl⟩
      | some f =>
        by_cases hh : startsWithS "#" (stripS raw) = true
        · simp [parse_resume_step, hb, ht, hh]
        · rw [resume_step_append sec f raw ht hb (by simpa using hh)]
          rw [appendSection_eq_update]
          exact updateSection_name sec f _

theorem parse_fold_preserves_id (lines : List String) :
    ∀ st : ResumeSections × Option ResumeField,
    (parse_resume_lines st lines).1.name = st.1.name ∧
    (parse_resume_lines st lines).1.contact_info = st.1.contact_info := by
  induction lines with
  | nil => intro st; exact ⟨rfl, rfl⟩
  | cons raw rest ih =>
    intro st
    show (parse_resume_lines (parse_resume_step st raw) rest).1.name = _ ∧ _
    obtain ⟨h1, h2⟩ := ih (parse_resume_step st raw)
    obtain ⟨g1, g2⟩ := parse_step_preserves_id st raw
    exact ⟨h1.trans g1, h2.trans g2⟩

theorem mem_stripL (l : List Char) (c : Char) (h : c ∈ stripL l) : c ∈ l := by
  unfold stripL at h
  rw [List.mem_reverse] at h
  have h2 := (List.dropWhile_suffix pyWs).subset h
  rw [List.mem_reverse] at h2
  exact (List.dropWhile_suffix pyWs).subset h2

theorem parse_step_normal (st : ResumeSections × Option ResumeField) (raw : String)
    (hnl : '\n' ∉ raw.data) (h : ∀ f, NormalContent (getSection st.1 f)) :
    ∀ f, NormalContent (getSection (parse_resume_step st raw).1 f) := by
  by_cases hb : stripS raw = ""
  · rw [resume_step_blank st raw hb]; exact h
  · cases ht : resumeTrigger (lowerS (stripS raw)) with
    | some f0 => rw [resume_step_trigger st raw f0 ht hb]; exact h
    | none =>
      rcases st with ⟨sec, cur⟩
      cases cur with
      | none => rw [resume_step_skip_none sec raw ht]; exact h
      | some f0 =>
        by_cases hh : startsWithS "#" (stripS raw) = true
        · simp only [parse_resume_step, hb, ht, hh, if_neg, if_pos]
          simp at h ⊢
          exact fun f => h f
        · rw [resume_step_append sec f0 raw ht hb (by simpa using hh)]
          intro f
          by_cases hf : f0 = f
          · subst hf
            rw [appendSection_eq_update, getSection_update]
            obtain ⟨ls, hgl, hcl⟩ := h f0
            refine ⟨ls ++ [stripS raw], ?_, ?_⟩
            · rw [linesGlue_concat, ← hgl]
            · intro l hl
              rcases List.mem_append.mp hl with h1 | h1
              · exact hcl l h1
              · have : l = stripS raw := by simpa using h1
                subst this
                refine ⟨stripS_idem raw, hb, by simpa using hh, ht, ?_⟩
                intro hc
                exact hnl (mem_stripL raw.data '\n' hc)
          · rw [appendSection_eq_update, getSection_update_other sec f0 f _ hf]
            exact h f

theorem parse_fold_normal (lines : List String)
    (hnl : ∀ raw ∈ lines, '\n' ∉ raw.data) :
    ∀ st : ResumeSections × Option ResumeField,
    (∀ f, NormalContent (getSection st.1 f)) →
    ∀ f, NormalContent (getSection (parse_resume_lines st lines).1 f) := by
  induction lines with
  | nil => intro st h f; exact h f
  | cons raw rest ih =>
    intro st h f
    show NormalContent (getSection (parse_resume_lines (parse_resume_step st raw) rest).1 f)
    exact ih (fun r hr => hnl r (List.mem_cons_of_mem raw hr))
      (parse_resume_step st raw)
      (parse_step_normal st raw (hnl raw (List.mem_cons_self raw rest)) h) f

theorem mem_linesOf_no_newline (s : String) (raw : String) (h : raw ∈ linesOf s) :
    '\n' ∉ raw.data := by
  unfold linesOf at h
  obtain ⟨part, hp, rfl⟩ := List.mem_map.mp h
  rw [string_data_mk]
  exact mem_splitOnChar_no_sep '\n' s.data part hp

theorem parse_resume_content_normal (content pinfo : String) :
    ∀ f, NormalContent (getSection (parse_resume_content content pinfo) f) := by
  unfold parse_resume_content
  apply parse_fold_normal (linesOf content) (fun raw hr => mem_linesOf_no_newline content raw hr)
  intro f
  cases f <;> exact ⟨[], rfl, by simp⟩

theorem string_mk_append (a b : String) : String.mk (a.data ++ b.data) = a ++ b := by
  apply String.ext
  rw [string_data_mk, String.data_append]

theorem string_empty_append (a : String) : "" ++ a = a := by
  apply String.ext
  simp [String.data_append]

theorem parseChunk_append_sep (st : ResumeSections × Option ResumeField)
    (x y : List Char) :
    parseChunk st (x ++ '\n' :: y) = parseChunk (parseChunk st x) y := by
  unfold parseChunk parse_resume_lines
  rw [splitOnChar_append_sep, List.map_append, List.foldl_append]

theorem parseChunk_cons_sep (st : ResumeSections × Option ResumeField) (y : List Char) :
    parseChunk st ('\n' :: y) = parseChunk st y := by
  unfold parseChunk parse_resume_lines
  rw [splitOnChar_cons_sep]
  simp only [List.map_cons, List.foldl_cons]
  rw [show String.mk [] = "" from rfl, resume_step_blank st "" rfl]

theorem parseChunk_nil (st : ResumeSections × Option ResumeField) :
    parseChunk st [] = st := by
  show parse_resume_step st "" = st
  exact resume_step_blank st "" rfl

theorem parseChunk_single (st : ResumeSections × Option ResumeField) (x : List Char)
    (h : '\n' ∉ x) : parseChunk st x = parse_resume_step st (String.mk x) := by
  unfold parseChunk parse_resume_lines
  rw [splitOnChar_no_sep '\n' x h]
  rfl

theorem parseChunk_glue (st : ResumeSections × Option ResumeField)
    (ls : List String) (rest : List Char) (h : ∀ l ∈ ls, '\n' ∉ l.data) :
    parseChunk st ((linesGlue ls).data ++ rest) =
      parseChunk (parse_resume_lines st ls) rest := by
  unfold parseChunk parse_resume_lines
  rw [splitOnChar_glue ls rest h, List.map_append, List.foldl_append]
  congr 1
  rw [List.map_map]
  have hid : (String.mk ∘ String.data) = id := funext string_mk_data
  rw [hid, List.map_id]

theorem parseChunk_linesOf (st : ResumeSections × Option ResumeField) (s : String) :
    parseChunk st s.data = parse_resume_lines st (linesOf s) := rfl

-- Template-literal chunk lemmas: processing one rendered line.

theorem parseChunk_headline (sec : ResumeSections) :
    parseChunk (sec, none) ("# 📄 Professional Resume".data) = (sec, none) := by
  rw [parseChunk_single _ _ (by decide)]
  exact resume_step_skip_none sec _ (by decide)

theorem parseChunk_dash_none (sec : ResumeSections) :
    parseChunk (sec, none) ("---".data) = (sec, none) := by
  rw [parseChunk_single _ _ (by decide)]
  exact resume_step_skip_none sec _ (by decide)

theorem parseChunk_dash_some (sec : ResumeSections) (f : ResumeField) :
    parseChunk (sec, some f) ("---".data) = (appendSection sec f "---", some f) := by
  rw [parseChunk_single _ _ (by decide)]
  exact resume_step_clean sec f "---" (by refine ⟨by decide, by decide, by decide, by decide, by decide⟩)

theorem parseChunk_sum_hdr (sec : ResumeSections) (cur : Option ResumeField) :
    parseChunk (sec, cur) ("## 🎯 Professional Summary".data) =
      (sec, some ResumeField.summary) := by
  rw [parseChunk_single _ _ (by decide)]
  exact resume_step_trigger (sec, cur) _ ResumeField.summary (by decide) (by decide)

theorem parseChunk_skills_hdr (sec : ResumeSections) (cur : Option ResumeField) :
    parseChunk (sec, cur) ("## 💪 Skills".data) = (sec, some ResumeField.skills) := by
  rw [parseChunk_single _ _ (by decide)]
  exact resume_step_trigger (sec, cur) _ ResumeField.skills (by decide) (by decide)

theorem parseChunk_exp_hdr (sec : ResumeSections) (cur : Option ResumeField) :
    parseChunk (sec, cur) ("## 💼 Professional Experience".data) =
      (sec, some ResumeField.experience) := by
  rw [parseChunk_single _ _ (by decide)]
  exact resume_step_trigger (sec, cur) _ ResumeField.experience (by decide) (by decide)

theorem parseChunk_edu_hdr (sec : ResumeSections) (cur : Option ResumeField) :
    parseChunk (sec, cur) ("## 🎓 Education".data) = (sec, some ResumeField.education) := by
  rw [parseChunk_single _ _ (by decide)]
  exact resume_step_trigger (sec, cur) _ ResumeField.education (by decide) (by decide)

theorem parseChunk_proj_hdr (sec : ResumeSections) (cur : Option ResumeField) :
    parseChunk (sec, cur) ("## 🚀 Projects".data) = (sec, some ResumeField.projects) := by
  rw [parseChunk_single _ _ (by decide)]
  exact resume_step_trigger (sec, cur) _ ResumeField.projects (by decide) (by decide)

theorem parseChunk_name_line (sec : ResumeSections) (nm : String)
    (hnl : '\n' ∉ nm.data)
    (ht : resumeTrigger (lowerS (stripS ("## " ++ nm))) = none) :
    parseChunk (sec, none) ("## ".data ++ nm.data) = (sec, none) := by
  rw [parseChunk_single _ _ ?hn]
  case hn =>
    intro hc
    rcases List.mem_append.mp hc with h1 | h1
    · revert h1; decide
    · exact hnl h1
  rw [string_mk_append]
  exact resume_step_skip_none sec _ ht

theorem parseChunk_contact (sec : ResumeSections) (ci : String)
    (ht : ∀ cl ∈ linesOf ci, resumeTrigger (lowerS (stripS cl)) = none) :
    parseChunk (sec, none) (ci.data) = (sec, none) := by
  rw [parseChunk_linesOf]
  exact resume_fold_no_trigger sec (linesOf ci) ht

theorem footer_data_cons (date : String) :
    ("*Resume generated by LaunchPad.AI on " ++ date ++ "*").data =
      '*' :: ("Resume generated by LaunchPad.AI on ".data ++ (date.data ++ ['*'])) := by
  rw [String.data_append, String.data_append]
  rw [show ("*Resume generated by LaunchPad.AI on ").data =
    '*' :: ("Resume generated by LaunchPad.AI on ").data from rfl]
  simp [List.append_assoc]

theorem footer_data_concat (date : String) :
    ("*Resume generated by LaunchPad.AI on " ++ date ++ "*").data =
      ("*Resume generated by LaunchPad.AI on ".data ++ date.data) ++ ['*'] := by
  rw [String.data_append, String.data_append]

theorem footer_strip (date : String) :
    stripS ("*Resume generated by LaunchPad.AI on " ++ date ++ "*") =
      "*Resume generated by LaunchPad.AI on " ++ date ++ "*" := by
  apply String.ext
  show stripL ("*Resume generated by LaunchPad.AI on " ++ date ++ "*").data = _
  apply stripL_eq_self
  · intro c hc
    rw [footer_data_cons] at hc
    injection hc with h
    subst h
    decide
  · intro c hc
    rw [footer_data_concat, List.getLast?_concat] at hc
    injection hc with h
    subst h
    decide

theorem footer_ne_empty (date : String) :
    ("*Resume generated by LaunchPad.AI on " ++ date ++ "*") ≠ "" := by
  intro h
  have := congrArg String.data h
  rw [footer_data_cons] at this
  exact List.noConfusion this

theorem footer_no_hash (date : String) :
    startsWithS "#" ("*Resume generated by LaunchPad.AI on " ++ date ++ "*") = false := by
  unfold startsWithS
  rw [footer_data_cons]
  show ('#' :: []).isPrefixOf ('*' :: _) = false
  simp [List.isPrefixOf]

theorem footer_no_newline (date : String) (hdn : '\n' ∉ date.data) :
    '\n' ∉ ("*Resume generated by LaunchPad.AI on " ++ date ++ "*").data := by
  rw [footer_data_cons]
  intro hc
  rcases List.mem_cons.mp hc with h | h
  · exact absurd h (by decide)
  · rcases List.mem_append.mp h with h1 | h1
    · revert h1; decide
    · rcases List.mem_append.mp h1 with h2 | h2
      · exact hdn h2
      · revert h2; decide

theorem parseChunk_footer (sec : ResumeSections) (f : ResumeField) (date : String)
    (hdn : '\n' ∉ date.data)
    (ht : resumeTrigger (lowerS (stripS
      ("*Resume generated by LaunchPad.AI on " ++ date ++ "*"))) = none) :
    parseChunk (sec, some f)
        (("*Resume generated by LaunchPad.AI on " ++ date ++ "*").data) =
      (appendSection sec f ("*Resume generated by LaunchPad.AI on " ++ date ++ "*"),
        some f) := by
  rw [parseChunk_single _ _ (footer_no_newline date hdn)]
  rw [string_mk_data]
  rw [resume_step_append sec f _ ht
    (by rw [footer_strip]; exact footer_ne_empty date)
    (by rw [footer_strip]; exact footer_no_hash date)]
  rw [footer_strip]

set_option maxRecDepth 10000 in
theorem format_resume_data_chain (nm ci date : String)
    (lsSum lsSk lsExp lsEdu lsProj : List String) :
    (format_resume
      { name := nm, contact_info := ci, summary := linesGlue lsSum,
        skills := linesGlue lsSk, experience := linesGlue lsExp,
        education := linesGlue lsEdu, projects := linesGlue lsProj } date).data =
    "# 📄 Professional Resume".data ++ '\n' :: ('\n' :: (("## ".data ++ nm.data) ++ '\n' :: (ci.data ++ '\n' :: ('\n' :: ("---".data ++ '\n' :: ('\n' :: ("## 🎯 Professional Summary".data ++ '\n' :: ((linesGlue lsSum).data ++ ('\n' :: ('\n' :: ("---".data ++ '\n' :: ('\n' :: ("## 💪 Skills".data ++ '\n' :: ((linesGlue lsSk).data ++ ('\n' :: ('\n' :: ("---".data ++ '\n' :: ('\n' :: ("## 💼 Professional Experience".data ++ '\n' :: ((linesGlue lsExp).data ++ ('\n' :: ('\n' :: ("---".data ++ '\n' :: ('\n' :: ("## 🎓 Education".data ++ '\n' :: ((linesGlue lsEdu).data ++ ('\n' :: ('\n' :: ("---".data ++ '\n' :: ('\n' :: ("## 🚀 Projects".data ++ '\n' :: ((linesGlue lsProj).data ++ ('\n' :: ('\n' :: ("---".data ++ '\n' :: ('\n' :: (("*Resume generated by LaunchPad.AI on " ++ date ++ "*").data ++ '\n' :: ([] : List Char)))))))))))))))))))))))))))))))))))))) := by
  have eA : ("# 📄 Professional Resume\n\n## " : String).data =
      "# 📄 Professional Resume".data ++ '\n' :: '\n' :: "## ".data := rfl
  have eB : ("\n" : String).data = ['\n'] := rfl
  have eC : ("\n\n---\n\n## 🎯 Professional Summary\n" : String).data =
      '\n' :: '\n' :: ("---".data ++ '\n' :: '\n' ::
        ("## 🎯 Professional Summary".data ++ ['\n'])) := rfl
  have eD : ("\n\n---\n\n## 💪 Skills\n" : String).data =
      '\n' :: '\n' :: ("---".data ++ '\n' :: '\n' ::
        ("## 💪 Skills".data ++ ['\n'])) := rfl
  have eE : ("\n\n---\n\n## 💼 Professional Experience\n" : String).data =
      '\n' :: '\n' :: ("---".data ++ '\n' :: '\n' ::
        ("## 💼 Professional Experience".data ++ ['\n'])) := rfl
  have eG : ("\n\n---\n\n## 🎓 Education\n" : String).data =
      '\n' :: '\n' :: ("---".data ++ '\n' :: '\n' ::
        ("## 🎓 Education".data ++ ['\n'])) := rfl
  have eH : ("\n\n---\n\n## 🚀 Projects\n" : String).data =
      '\n' :: '\n' :: ("---".data ++ '\n' :: '\n' ::
        ("## 🚀 Projects".data ++ ['\n'])) := rfl
  have eI : ("\n\n---\n\n*Resume generated by LaunchPad.AI on " : String).data =
      '\n' :: '\n' :: ("---".data ++ '\n' :: '\n' ::
        "*Resume generated by LaunchPad.AI on ".data) := rfl
  have eJ : ("*\n" : String).data = '*' :: ['\n'] := rfl
  simp only [format_resume, String.data_append, eA, eB, eC, eD, eE, eG, eH, eI, eJ,
    List.cons_append, List.append_assoc, List.singleton_append, List.nil_append,
    List.append_nil]

set_option maxRecDepth 10000 in
theorem parse_chain (sec : ResumeSections) (nm ci date : String)
    (lsSum lsSk lsExp lsEdu lsProj : List String)
    (Hname_nl : '\n' ∉ nm.data)
    (Hname : resumeTrigger (lowerS (stripS ("## " ++ nm))) = none)
    (Hcontact : ∀ cl ∈ linesOf ci, resumeTrigger (lowerS (stripS cl)) = none)
    (Hdate_nl : '\n' ∉ date.data)
    (Hfoot : resumeTrigger (lowerS (stripS
      ("*Resume generated by LaunchPad.AI on " ++ date ++ "*"))) = none)
    (hclSum : ∀ l ∈ lsSum, CleanLine l)
    (hclSk : ∀ l ∈ lsSk, CleanLine l)
    (hclExp : ∀ l ∈ lsExp, CleanLine l)
    (hclEdu : ∀ l ∈ lsEdu, CleanLine l)
    (hclProj : ∀ l ∈ lsProj, CleanLine l) :
    parseChunk (sec, none)
      ("# 📄 Professional Resume".data ++ '\n' :: ('\n' :: (("## ".data ++ nm.data) ++ '\n' :: (ci.data ++ '\n' :: ('\n' :: ("---".data ++ '\n' :: ('\n' :: ("## 🎯 Professional Summary".data ++ '\n' :: ((linesGlue lsSum).data ++ ('\n' :: ('\n' :: ("---".data ++ '\n' :: ('\n' :: ("## 💪 Skills".data ++ '\n' :: ((linesGlue lsSk).data ++ ('\n' :: ('\n' :: ("---".data ++ '\n' :: ('\n' :: ("## 💼 Professional Experience".data ++ '\n' :: ((linesGlue lsExp).data ++ ('\n' :: ('\n' :: ("---".data ++ '\n' :: ('\n' :: ("## 🎓 Education".data ++ '\n' :: ((linesGlue lsEdu).data ++ ('\n' :: ('\n' :: ("---".data ++ '\n' :: ('\n' :: ("## 🚀 Projects".data ++ '\n' :: ((linesGlue lsProj).data ++ ('\n' :: ('\n' :: ("---".data ++ '\n' :: ('\n' :: (("*Resume generated by LaunchPad.AI on " ++ date ++ "*").data ++ '\n' :: ([] : List Char))))))))))))))))))))))))))))))))))))))) =
    ((appendSection (appendSection (updateSection (appendSection (updateSection (appendSection (updateSection (appendSection (updateSection (appendSection (updateSection sec ResumeField.summary (getSection sec ResumeField.summary ++ linesGlue lsSum)) ResumeField.summary "---") ResumeField.skills (getSection (appendSection (updateSection sec ResumeField.summary (getSection sec ResumeField.summary ++ linesGlue lsSum)) ResumeField.summary "---") ResumeField.skills ++ linesGlue lsSk)) ResumeField.skills "---") ResumeField.experience (getSection (appendSection (updateSection (appendSection (updateSection sec ResumeField.summary (getSection sec ResumeField.summary ++ linesGlue lsSum)) ResumeField.summary "---") ResumeField.skills (getSection (appendSection (updateSection sec ResumeField.summary (getSection sec ResumeField.summary ++ linesGlue lsSum)) ResumeField.summary "---") ResumeField.skills ++ linesGlue lsSk)) ResumeField.skills "---") ResumeField.experience ++ linesGlue lsExp)) ResumeField.experience "---") ResumeField.education (getSection (appendSection (updateSection (appendSection (updateSection (appendSection (updateSection sec ResumeField.summary (getSection sec ResumeField.summary ++ linesGlue lsSum)) ResumeField.summary "---") ResumeField.skills (getSection (appendSection (updateSection sec ResumeField.summary (getSection sec ResumeField.summary ++ linesGlue lsSum)) ResumeField.summary "---") ResumeField.skills ++ linesGlue lsSk)) ResumeField.skills "---") ResumeField.experience (getSection (appendSection (updateSection (appendSection (updateSection sec ResumeField.summary (getSection sec ResumeField.summary ++ linesGlue lsSum)) ResumeField.summary "---") ResumeField.skills (getSection (appendSection (updateSection sec ResumeField.summary (getSection sec ResumeField.summary ++ linesGlue lsSum)) ResumeField.summary "---") ResumeField.skills ++ linesGlue lsSk)) ResumeField.skills "---") ResumeField.experience ++ linesGlue lsExp)) ResumeField.experience "---") ResumeField.education ++ linesGlue lsEdu)) ResumeField.education "---") ResumeField.projects (getSection (appendSection (updateSection (appendSection (updateSection (appendSection (updateSection (appendSection (updateSection sec ResumeField.summary (getSection sec ResumeField.summary ++ linesGlue lsSum)) ResumeField.summary "---") ResumeField.skills (getSection (appendSection (updateSection sec ResumeField.summary (getSection sec ResumeField.summary ++ linesGlue lsSum)) ResumeField.summary "---") ResumeField.skills ++ linesGlue lsSk)) ResumeField.skills "---") ResumeField.experience (getSection (appendSection (updateSection (appendSection (updateSection sec ResumeField.summary (getSection sec ResumeField.summary ++ linesGlue lsSum)) ResumeField.summary "---") ResumeField.skills (getSection (appendSection (updateSection sec ResumeField.summary (getSection sec ResumeField.summary ++ linesGlue lsSum)) ResumeField.summary "---") ResumeField.skills ++ linesGlue lsSk)) ResumeField.skills "---") ResumeField.experience ++ linesGlue lsExp)) ResumeField.experience "---") ResumeField.education (getSection (appendSection (updateSection (appendSection (updateSection (appendSection (updateSection sec ResumeField.summary (getSection sec ResumeField.summary ++ linesGlue lsSum)) ResumeField.summary "---") ResumeField.skills (getSection (appendSection (updateSection sec ResumeField.summary (getSection sec ResumeField.summary ++ linesGlue lsSum)) ResumeField.summary "---") ResumeField.skills ++ linesGlue lsSk)) ResumeField.skills "---") ResumeField.experience (getSection (appendSection (updateSection (appendSection (updateSection sec ResumeField.summary (getSection sec ResumeField.summary ++ linesGlue lsSum)) ResumeField.summary "---") ResumeField.skills (getSection (appendSection (updateSection sec ResumeField.summary (getSection sec ResumeField.summary ++ linesGlue lsSum)) ResumeField.summary "---") ResumeField.skills ++ linesGlue lsSk)) ResumeField.skills "---") ResumeField.experience ++ linesGlue lsExp)) ResumeField.experience "---") ResumeField.education ++ linesGlue lsEdu)) ResumeField.education "---") ResumeField.projects ++ linesGlue lsProj)) ResumeField.projects "---") ResumeField.projects ("*Resume generated by LaunchPad.AI on " ++ date ++ "*")), some ResumeField.projects) := by
  rw [parseChunk_append_sep, parseChunk_headline]
  rw [parseChunk_cons_sep]
  rw [parseChunk_append_sep, parseChunk_name_line sec nm Hname_nl Hname]
  rw [parseChunk_append_sep, parseChunk_contact sec ci Hcontact]
  rw [parseChunk_cons_sep]
  rw [parseChunk_append_sep, parseChunk_dash_none]
  rw [parseChunk_cons_sep]
  rw [parseChunk_append_sep, parseChunk_sum_hdr]
  rw [parseChunk_glue _ lsSum _ (fun l hl => (hclSum l hl).2.2.2.2)]
  rw [parse_fold_clean ResumeField.summary lsSum hclSum sec]
  rw [parseChunk_cons_sep, parseChunk_cons_sep]
  rw [parseChunk_append_sep, parseChunk_dash_some]
  rw [parseChunk_cons_sep]
  rw [parseChunk_append_sep, parseChunk_skills_hdr]
  rw [parseChunk_glue _ lsSk _ (fun l hl => (hclSk l hl).2.2.2.2)]
  rw [parse_fold_clean ResumeField.skills lsSk hclSk]
  rw [parseChunk_cons_sep, parseChunk_cons_sep]
  rw [parseChunk_append_sep, parseChunk_dash_some]
  rw [parseChunk_cons_sep]
  rw [parseChunk_append_sep, parseChunk_exp_hdr]
  rw [parseChunk_glue _ lsExp _ (fun l hl => (hclExp l hl).2.2.2.2)]
  rw [parse_fold_clean ResumeField.experience lsExp hclExp]
  rw [parseChunk_cons_sep, parseChunk_cons_sep]
  rw [parseChunk_append_sep, parseChunk_dash_some]
  rw [parseChunk_cons_sep]
  rw [parseChunk_append_sep, parseChunk_edu_hdr]
  rw [parseChunk_glue _ lsEdu _ (fun l hl => (hclEdu l hl).2.2.2.2)]
  rw [parse_fold_clean ResumeField.education lsEdu hclEdu]
  rw [parseChunk_cons_sep, parseChunk_cons_sep]
  rw [parseChunk_append_sep, parseChunk_dash_some]
  rw [parseChunk_cons_sep]
  rw [parseChunk_append_sep, parseChunk_proj_hdr]
  rw [parseChunk_glue _ lsProj _ (fun l hl => (hclProj l hl).2.2.2.2)]
  rw [parse_fold_clean ResumeField.projects lsProj hclProj]
  rw [parseChunk_cons_sep, parseChunk_cons_sep]
  rw [parseChunk_append_sep, parseChunk_dash_some]
  rw [parseChunk_cons_sep]
  rw [parseChunk_append_sep,
    parseChunk_footer _ ResumeField.projects date Hdate_nl Hfoot]
  rw [parseChunk_nil]

theorem bridge_dash (g : String) : (("" ++ g) ++ "---") ++ "\n" = g ++ "---\n" := by
  apply String.ext
  simp only [String.data_append, List.nil_append, List.append_assoc]
  rfl

theorem bridge_dash_footer (g F : String) :
    (((("" ++ g) ++ "---") ++ "\n") ++ F) ++ "\n" = ((g ++ "---\n") ++ F) ++ "\n" := by
  apply String.ext
  simp only [String.data_append, List.nil_append, List.append_assoc]
  rfl

set_option maxRecDepth 100000 in
/-- C6 (amended): re-parsing the rendered resume is not the identity modulo
whitespace; instead, provided the extracted name, the extracted contact
lines and the generation date contain no section-trigger keywords (and name
and date are newline-free), re-parsing recovers each content section
exactly as the original content followed by the rendered `---` separator
line, with the projects section additionally absorbing the generation
footer; name and contact are re-extracted unchanged. -/
theorem resume_roundtrip (content pinfo date : String)
    (Hname_nl : '\n' ∉ (extract_name pinfo).data)
    (Hname : resumeTrigger (lowerS (stripS ("## " ++ extract_name pinfo))) = none)
    (Hcontact : ∀ cl ∈ linesOf (extract_contact_info pinfo),
      resumeTrigger (lowerS (stripS cl)) = none)
    (Hdate_nl : '\n' ∉ date.data)
    (Hfoot : resumeTrigger (lowerS (stripS
      ("*Resume generated by LaunchPad.AI on " ++ date ++ "*"))) = none) :
    (parse_resume_content (format_resume (parse_resume_content content pinfo) date) pinfo).name = (parse_resume_content content pinfo).name ∧
    (parse_resume_content (format_resume (parse_resume_content content pinfo) date) pinfo).contact_info = (parse_resume_content content pinfo).contact_info ∧
    (parse_resume_content (format_resume (parse_resume_content content pinfo) date) pinfo).summary = (parse_resume_content content pinfo).summary ++ "---\n" ∧
    (parse_resume_content (format_resume (parse_resume_content content pinfo) date) pinfo).skills = (parse_resume_content content pinfo).skills ++ "---\n" ∧
    (parse_resume_content (format_resume (parse_resume_content content pinfo) date) pinfo).experience = (parse_resume_content content pinfo).experience ++ "---\n" ∧
    (parse_resume_content (format_resume (parse_resume_content content pinfo) date) pinfo).education = (parse_resume_content content pinfo).education ++ "---\n" ∧
    (parse_resume_content (format_resume (parse_resume_content content pinfo) date) pinfo).projects = ((parse_resume_content content pinfo).projects ++ "---\n" ++
      ("*Resume generated by LaunchPad.AI on " ++ date ++ "*")) ++ "\n" := by
  obtain ⟨lsSum, hSum, hclSum⟩ := parse_resume_content_normal content pinfo ResumeField.summary
  obtain ⟨lsSk, hSk, hclSk⟩ := parse_resume_content_normal content pinfo ResumeField.skills
  obtain ⟨lsExp, hExp, hclExp⟩ := parse_resume_content_normal content pinfo ResumeField.experience
  obtain ⟨lsEdu, hEdu, hclEdu⟩ := parse_resume_content_normal content pinfo ResumeField.education
  obtain ⟨lsProj, hProj, hclProj⟩ := parse_resume_content_normal content pinfo ResumeField.projects
  have e1 : (parse_resume_content content pinfo).name = extract_name pinfo :=
    (parse_fold_preserves_id (linesOf content) _).1
  have e2 : (parse_resume_content content pinfo).contact_info = extract_contact_info pinfo :=
    (parse_fold_preserves_id (linesOf content) _).2
  have hs0f : parse_resume_content content pinfo =
      { name := extract_name pinfo, contact_info := extract_contact_info pinfo,
        summary := linesGlue lsSum, skills := linesGlue lsSk,
        experience := linesGlue lsExp, education := linesGlue lsEdu,
        projects := linesGlue lsProj } := by
    cases hx : parse_resume_content content pinfo with
    | mk n c su sk ex ed pj =>
      rw [hx] at e1 e2 hSum hSk hExp hEdu hProj
      dsimp only [getSection] at hSum hSk hExp hEdu hProj
      dsimp only at e1 e2
      rw [e1, e2, hSum, hSk, hExp, hEdu, hProj]
  have hre : parse_resume_content (format_resume (parse_resume_content content pinfo) date) pinfo = (appendSection (appendSection (updateSection (appendSection (updateSection (appendSection (updateSection (appendSection (updateSection (appendSection (updateSection ({ name := extract_name pinfo, contact_info := extract_contact_info pinfo, summary := "", skills := "", experience := "", education := "", projects := "" } : ResumeSections) ResumeField.summary (getSection ({ name := extract_name pinfo, contact_info := extract_contact_info pinfo, summary := "", skills := "", experience := "", education := "", projects := "" } : ResumeSections) ResumeField.summary ++ linesGlue lsSum)) ResumeField.summary "---") ResumeField.skills (getSection (appendSection (updateSection ({ name := extract_name pinfo, contact_info := extract_contact_info pinfo, summary := "", skills := "", experience := "", education := "", projects := "" } : ResumeSections) ResumeField.summary (getSection ({ name := extract_name pinfo, contact_info := extract_contact_info pinfo, summary := "", skills := "", experience := "", education := "", projects := "" } : ResumeSections) ResumeField.summary ++ linesGlue lsSum)) ResumeField.summary "---") ResumeField.skills ++ linesGlue lsSk)) ResumeField.skills "---") ResumeField.experience (getSection (appendSection (updateSection (appendSection (updateSection ({ name := extract_name pinfo, contact_info := extract_contact_info pinfo, summary := "", skills := "", experience := "", education := "", projects := "" } : ResumeSections) ResumeField.summary (getSection ({ name := extract_name pinfo, contact_info := extract_contact_info pinfo, summary := "", skills := "", experience := "", education := "", projects := "" } : ResumeSections) ResumeField.summary ++ linesGlue lsSum)) ResumeField.summary "---") ResumeField.skills (getSection (appendSection (updateSection ({ name := extract_name pinfo, contact_info := extract_contact_info pinfo, summary := "", skills := "", experience := "", education := "", projects := "" } : ResumeSections) ResumeField.summary (getSection ({ name := extract_name pinfo, contact_info := extract_contact_info pinfo, summary := "", skills := "", experience := "", education := "", projects := "" } : ResumeSections) ResumeField.summary ++ linesGlue lsSum)) ResumeField.summary "---") ResumeField.skills ++ linesGlue lsSk)) ResumeField.skills "---") ResumeField.experience ++ linesGlue lsExp)) ResumeField.experience "---") ResumeField.education (getSection (appendSection (updateSection (appendSection (updateSection (appendSection (updateSection ({ name := extract_name pinfo, contact_info := extract_contact_info pinfo, summary := "", skills := "", experience := "", education := "", projects := "" } : ResumeSections) ResumeField.summary (getSection ({ name := extract_name pinfo, contact_info := extract_contact_info pinfo, summary := "", skills := "", experience := "", education := "", projects := "" } : ResumeSections) ResumeField.summary ++ linesGlue lsSum)) ResumeField.summary "---") ResumeField.skills (getSection (appendSection (updateSection ({ name := extract_name pinfo, contact_info := extract_contact_info pinfo, summary := "", skills := "", experience := "", education := "", projects := "" } : ResumeSections) ResumeField.summary (getSection ({ name := extract_name pinfo, contact_info := extract_contact_info pinfo, summary := "", skills := "", experience := "", education := "", projects := "" } : ResumeSections) ResumeField.summary ++ linesGlue lsSum)) ResumeField.summary "---") ResumeField.skills ++ linesGlue lsSk)) ResumeField.skills "---") ResumeField.experience (getSection (appendSection (updateSection (appendSection (updateSection ({ name := extract_name pinfo, contact_info := extract_contact_info pinfo, summary := "", skills := "", experience := "", education := "", projects := "" } : ResumeSections) ResumeField.summary (getSection ({ name := extract_name pinfo, contact_info := extract_contact_info pinfo, summary := "", skills := "", experience := "", education := "", projects := "" } : ResumeSections) ResumeField.summary ++ linesGlue lsSum)) ResumeField.summary "---") ResumeField.skills (getSection (appendSection (updateSection ({ name := extract_name pinfo, contact_info := extract_contact_info pinfo, summary := "", skills := "", experience := "", education := "", projects := "" } : ResumeSections) ResumeField.summary (getSection ({ name := extract_name pinfo, contact_info := extract_contact_info pinfo, summary := "", skills := "", experience := "", education := "", projects := "" } : ResumeSections) ResumeField.summary ++ linesGlue lsSum)) ResumeField.summary "---") ResumeField.skills ++ linesGlue lsSk)) ResumeField.skills "---") ResumeField.experience ++ linesGlue lsExp)) ResumeField.experience "---") ResumeField.education ++ linesGlue lsEdu)) ResumeField.education "---") ResumeField.projects (getSection (appendSection (updateSection (appendSection (updateSection (appendSection (updateSection (appendSection (updateSection ({ name := extract_name pinfo, contact_info := extract_contact_info pinfo, summary := "", skills := "", experience := "", education := "", projects := "" } : ResumeSections) ResumeField.summary (getSection ({ name := extract_name pinfo, contact_info := extract_contact_info pinfo, summary := "", skills := "", experience := "", education := "", projects := "" } : ResumeSections) ResumeField.summary ++ linesGlue lsSum)) ResumeField.summary "---") ResumeField.skills (getSection (appendSection (updateSection ({ name := extract_name pinfo, contact_info := extract_contact_info pinfo, summary := "", skills := "", experience := "", education := "", projects := "" } : ResumeSections) ResumeField.summary (getSection ({ name := extract_name pinfo, contact_info := extract_contact_info pinfo, summary := "", skills := "", experience := "", education := "", projects := "" } : ResumeSections) ResumeField.summary ++ linesGlue lsSum)) ResumeField.summary "---") ResumeField.skills ++ linesGlue lsSk)) ResumeField.skills "---") ResumeField.experience (getSection (appendSection (updateSection (appendSection (updateSection ({ name := extract_name pinfo, contact_info := extract_contact_info pinfo, summary := "", skills := "", experience := "", education := "", projects := "" } : ResumeSections) ResumeField.summary (getSection ({ name := extract_name pinfo, contact_info := extract_contact_info pinfo, summary := "", skills := "", experience := "", education := "", projects := "" } : ResumeSections) ResumeField.summary ++ linesGlue lsSum)) ResumeField.summary "---") ResumeField.skills (getSection (appendSection (updateSection ({ name := extract_name pinfo, contact_info := extract_contact_info pinfo, summary := "", skills := "", experience := "", education := "", projects := "" } : ResumeSections) ResumeField.summary (getSection ({ name := extract_name pinfo, contact_info := extract_contact_info pinfo, summary := "", skills := "", experience := "", education := "", projects := "" } : ResumeSections) ResumeField.summary ++ linesGlue lsSum)) ResumeField.summary "---") ResumeField.skills ++ linesGlue lsSk)) ResumeField.skills "---") ResumeField.experience ++ linesGlue lsExp)) ResumeField.experience "---") ResumeField.education (getSection (appendSection (updateSection (appendSection (updateSection (appendSection (updateSection ({ name := extract_name pinfo, contact_info := extract_contact_info pinfo, summary := "", skills := "", experience := "", education := "", projects := "" } : ResumeSections) ResumeField.summary (getSection ({ name := extract_name pinfo, contact_info := extract_contact_info pinfo, summary := "", skills := "", experience := "", education := "", projects := "" } : ResumeSections) ResumeField.summary ++ linesGlue lsSum)) ResumeField.summary "---") ResumeField.skills (getSection (appendSection (updateSection ({ name := extract_name pinfo, contact_info := extract_contact_info pinfo, summary := "", skills := "", experience := "", education := "", projects := "" } : ResumeSections) ResumeField.summary (getSection ({ name := extract_name pinfo, contact_info := extract_contact_info pinfo, summary := "", skills := "", experience := "", education := "", projects := "" } : ResumeSections) ResumeField.summary ++ linesGlue lsSum)) ResumeField.summary "---") ResumeField.skills ++ linesGlue lsSk)) ResumeField.skills "---") ResumeField.experience (getSection (appendSection (updateSection (appendSection (updateSection ({ name := extract_name pinfo, contact_info := extract_contact_info pinfo, summary := "", skills := "", experience := "", education := "", projects := "" } : ResumeSections) ResumeField.summary (getSection ({ name := extract_name pinfo, contact_info := extract_contact_info pinfo, summary := "", skills := "", experience := "", education := "", projects := "" } : ResumeSections) ResumeField.summary ++ linesGlue lsSum)) ResumeField.summary "---") ResumeField.skills (getSection (appendSection (updateSection ({ name := extract_name pinfo, contact_info := extract_contact_info pinfo, summary := "", skills := "", experience := "", education := "", projects := "" } : ResumeSections) ResumeField.summary (getSection ({ name := extract_name pinfo, contact_info := extract_contact_info pinfo, summary := "", skills := "", experience := "", education := "", projects := "" } : ResumeSections) ResumeField.summary ++ linesGlue lsSum)) ResumeField.summary "---") ResumeField.skills ++ linesGlue lsSk)) ResumeField.skills "---") ResumeField.experience ++ linesGlue lsExp)) ResumeField.experience "---") ResumeField.education ++ linesGlue lsEdu)) ResumeField.education "---") ResumeField.projects ++ linesGlue lsProj)) ResumeField.projects "---") ResumeField.projects ("*Resume generated by LaunchPad.AI on " ++ date ++ "*")) := by
    rw [hs0f]
    show (parseChunk (({ name := extract_name pinfo, contact_info := extract_contact_info pinfo, summary := "", skills := "", experience := "", education := "", projects := "" } : ResumeSections), none)
      (format_resume
        { name := extract_name pinfo, contact_info := extract_contact_info pinfo,
          summary := linesGlue lsSum, skills := linesGlue lsSk,
          experience := linesGlue lsExp, education := linesGlue lsEdu,
          projects := linesGlue lsProj } date).data).1 = _
    rw [format_resume_data_chain]
    rw [parse_chain ({ name := extract_name pinfo, contact_info := extract_contact_info pinfo, summary := "", skills := "", experience := "", education := "", projects := "" } : ResumeSections) (extract_name pinfo) (extract_contact_info pinfo)
      date lsSum lsSk lsExp lsEdu lsProj Hname_nl Hname Hcontact Hdate_nl Hfoot
      hclSum hclSk hclExp hclEdu hclProj]
  refine ⟨?_, ?_, ?_, ?_, ?_, ?_, ?_⟩
  · rw [hre, e1]
    rfl
  · rw [hre, e2]
    rfl
  · rw [hre, hs0f]
    exact bridge_dash (linesGlue lsSum)
  · rw [hre, hs0f]
    exact bridge_dash (linesGlue lsSk)
  · rw [hre, hs0f]
    exact bridge_dash (linesGlue lsExp)
  · rw [hre, hs0f]
    exact bridge_dash (linesGlue lsEdu)
  · rw [hre, hs0f]
    exact bridge_dash_footer (linesGlue lsProj)
      ("*Resume generated by LaunchPad.AI on " ++ date ++ "*")


set_option maxRecDepth 100000 in
/-- C6 counterexample: on the example mapping, re-parsing the rendered
resume yields an experience section `"---\n"` where the original was empty:
the rendered `---` separators leak into the re-parsed sections, so the
sections are not equivalent modulo whitespace. -/
theorem resume_roundtrip_cx :
    cxResume1.experience = "---\n" ∧
    cxResume0.experience = "" ∧
    cxResume1.experience.data.filter (fun c => !(pyWs c)) ≠
      cxResume0.experience.data.filter (fun c => !(pyWs c)) := by decide

set_option maxRecDepth 100000 in
/-- C6 witness: the round-trip theorem instantiated at the example
completion, empty personal info and a concrete date. -/
theorem resume_roundtrip_witness :
    cxResume1.summary = cxResume0.summary ++ "---\n" ∧
    cxResume1.projects = ((cxResume0.projects ++ "---\n" ++
      ("*Resume generated by LaunchPad.AI on " ++ "January 1, 2024" ++ "*")) ++ "\n") := by
  have h := resume_roundtrip "Summary:\nGreat candidate.\n\nSkills:\nPython, SQL" ""
    "January 1, 2024" (by decide) (by decide) (by decide) (by decide) (by decide)
  exact ⟨h.2.2.1, h.2.2.2.2.2.2⟩

end LaunchPad
